import Mathlib

/-!
# Shape hierarchy of `test_project` (shape.h, geometry.h, shapes_3d.h, advanced_shapes.h)

Shallow embedding of the C++ classes.

* A C++ object is a Lean structure holding its data members; a derived class
  `extends` the structure of its base, so the inherited members are the same
  fields.
* A member function that writes a member (`calculateArea`, the setters) is a
  function from the object to the returned value paired with the object after
  the call, or just to the object after the call when it returns `void`.
  A `const` member function is a function to its result.
* `double` values are elements of an arbitrary field `R` (exact arithmetic);
  the `<cmath>` macro `M_PI`, which is not part of the repository, is the
  parameter `pi` of the functions that use it.  Concrete evaluations are done
  over `ℚ` with the constant `M_PI` below.
* Where a statement bounds the rounded results, `Circle::calculateArea` and
  `Circle::calculatePerimeter` are also given in IEEE binary64 arithmetic
  (`calculateAreaBinary64`, `calculatePerimeterBinary64`): every product is
  rounded to the nearest binary64 value, ties to even.
* `std::string` is `String`; a possibly null pointer to a polymorphic object
  is an `Option` of a sum over the dynamic types the code can create.
* An `int` member is an `Int`; arithmetic on it goes through `wrapInt32`, the
  32-bit two's-complement wrap-around.
* A sequence of member-function calls made by a client is a list of calls
  (`SquareCall`, `SphereCall`, `ManagerCall`, ...) folded over the object.

The namespace `ComplexExample` holds the `ShapeManager` of
test/complex_example.cpp, a class of the same name as the one of
advanced_shapes.h and with another layout.
-/

set_option autoImplicit false

namespace TestProject

/-! ## shape.h -/

/-- Members of `class Shape`: `color` and the cached `area`. -/
structure Shape (R : Type) where
  color : String
  area : R
deriving DecidableEq, Repr

/-- Constructor `Shape(const std::string& c) : color(c), area(0.0)`. -/
def Shape.new {R : Type} [Field R] (c : String) : Shape R :=
  { color := c, area := 0 }

/-- Member `std::string getColor() const`. -/
def Shape.getColor {R : Type} (s : Shape R) : String := s.color

/-- Member `void setColor(const std::string& c)`. -/
def Shape.setColor {R : Type} (c : String) (s : Shape R) : Shape R :=
  { s with color := c }

/-- Member `double getArea() const { return area; }`. -/
def Shape.getArea {R : Type} (s : Shape R) : R := s.area

/-- Members of `class Shape2D : public Shape`: adds the cached `perimeter`. -/
structure Shape2D (R : Type) extends Shape R where
  perimeter : R
deriving DecidableEq, Repr

/-- Constructor `Shape2D(const std::string& c) : Shape(c), perimeter(0.0)`. -/
def Shape2D.new {R : Type} [Field R] (c : String) : Shape2D R :=
  { toShape := Shape.new c, perimeter := 0 }

/-- Member `double getPerimeter() const { return perimeter; }`. -/
def Shape2D.getPerimeter {R : Type} (s : Shape2D R) : R := s.perimeter

/-! ## geometry.h -/

/-- The literal glibc gives the `<cmath>` macro `M_PI`, as an exact rational;
used where a definition is evaluated on concrete input. -/
def M_PI : ℚ := 314159265358979323846 / 100000000000000000000

/-- Members of `class Circle : public Shape2D`: adds `radius`. -/
structure Circle (R : Type) extends Shape2D R where
  radius : R
deriving DecidableEq, Repr

/-- Constructor `Circle(const std::string& color, double r) : Shape2D(color), radius(r)`. -/
def Circle.new {R : Type} [Field R] (color : String) (r : R) : Circle R :=
  { toShape2D := Shape2D.new color, radius := r }

/-- Member `calculateArea`: `area = M_PI * radius * radius; return area;`. -/
def Circle.calculateArea {R : Type} [Field R] (pi : R) (c : Circle R) : R × Circle R :=
  let c1 : Circle R := { c with area := pi * c.radius * c.radius }
  (c1.area, c1)

/-- Member `calculatePerimeter`: `perimeter = 2 * M_PI * radius; return perimeter;`. -/
def Circle.calculatePerimeter {R : Type} [Field R] (pi : R) (c : Circle R) : R × Circle R :=
  let c1 : Circle R := { c with perimeter := 2 * pi * c.radius }
  (c1.perimeter, c1)

/-- Member `double getRadius() const { return radius; }`. -/
def Circle.getRadius {R : Type} (c : Circle R) : R := c.radius

/-- Member `void setRadius(double r) { radius = r; }`. -/
def Circle.setRadius {R : Type} (r : R) (c : Circle R) : Circle R :=
  { c with radius := r }

/-- Inherited `Shape::getArea` on a `Circle`. -/
def Circle.getArea {R : Type} (c : Circle R) : R := c.toShape.getArea

/-- Inherited `Shape2D::getPerimeter` on a `Circle`. -/
def Circle.getPerimeter {R : Type} (c : Circle R) : R := c.toShape2D.getPerimeter

/-- Inherited `Shape::getColor` on a `Circle`. -/
def Circle.getColor {R : Type} (c : Circle R) : String := c.toShape.getColor

/-- Inherited `Shape::setColor` on a `Circle`. -/
def Circle.setColor {R : Type} (col : String) (c : Circle R) : Circle R :=
  { c with toShape := c.toShape.setColor col }

/-- Members of `class Rectangle : public Shape2D`: adds `width`, `height`. -/
structure Rectangle (R : Type) extends Shape2D R where
  width : R
  height : R
deriving DecidableEq, Repr

/-- Constructor `Rectangle(color, w, h) : Shape2D(color), width(w), height(h)`. -/
def Rectangle.new {R : Type} [Field R] (color : String) (w h : R) : Rectangle R :=
  { toShape2D := Shape2D.new color, width := w, height := h }

/-- Member `calculateArea`: `area = width * height; return area;`. -/
def Rectangle.calculateArea {R : Type} [Field R] (r : Rectangle R) : R × Rectangle R :=
  let r1 : Rectangle R := { r with area := r.width * r.height }
  (r1.area, r1)

/-- Member `calculatePerimeter`: `perimeter = 2 * (width + height); return perimeter;`. -/
def Rectangle.calculatePerimeter {R : Type} [Field R] (r : Rectangle R) : R × Rectangle R :=
  let r1 : Rectangle R := { r with perimeter := 2 * (r.width + r.height) }
  (r1.perimeter, r1)

/-- Member `double getWidth() const { return width; }`. -/
def Rectangle.getWidth {R : Type} (r : Rectangle R) : R := r.width

/-- Member `double getHeight() const { return height; }`. -/
def Rectangle.getHeight {R : Type} (r : Rectangle R) : R := r.height

/-- Member `void setDimensions(double w, double h) { width = w; height = h; }`. -/
def Rectangle.setDimensions {R : Type} (w h : R) (r : Rectangle R) : Rectangle R :=
  let r1 : Rectangle R := { r with width := w }
  { r1 with height := h }

/-- Inherited `Shape::getArea` on a `Rectangle`. -/
def Rectangle.getArea {R : Type} (r : Rectangle R) : R := r.toShape.getArea

/-- Inherited `Shape2D::getPerimeter` on a `Rectangle`. -/
def Rectangle.getPerimeter {R : Type} (r : Rectangle R) : R := r.toShape2D.getPerimeter

/-- Inherited `Shape::getColor` on a `Rectangle`. -/
def Rectangle.getColor {R : Type} (r : Rectangle R) : String := r.toShape.getColor

/-- Inherited `Shape::setColor` on a `Rectangle`. -/
def Rectangle.setColor {R : Type} (col : String) (r : Rectangle R) : Rectangle R :=
  { r with toShape := r.toShape.setColor col }

/-- The `class Square : public Rectangle` declares no data member of its own. -/
structure Square (R : Type) extends Rectangle R where
deriving DecidableEq, Repr

/-- Constructor `Square(color, side) : Rectangle(color, side, side)`. -/
def Square.new {R : Type} [Field R] (color : String) (side : R) : Square R :=
  { toRectangle := Rectangle.new color side side }

/-- Member `void setSide(double side) { width = height = side; }`: `height`
is assigned first and `width` receives the value of that assignment. -/
def Square.setSide {R : Type} (side : R) (s : Square R) : Square R :=
  let s1 : Square R := { s with height := side }
  { s1 with width := s1.height }

/-- Member `double getSide() const { return width; }`. -/
def Square.getSide {R : Type} (s : Square R) : R := s.width

/-- Inherited `Rectangle::calculateArea` on a `Square`. -/
def Square.calculateArea {R : Type} [Field R] (s : Square R) : R × Square R :=
  let res := s.toRectangle.calculateArea
  (res.1, { toRectangle := res.2 })

/-- Inherited `Rectangle::calculatePerimeter` on a `Square`. -/
def Square.calculatePerimeter {R : Type} [Field R] (s : Square R) : R × Square R :=
  let res := s.toRectangle.calculatePerimeter
  (res.1, { toRectangle := res.2 })

/-- Inherited `Rectangle::getWidth` on a `Square`. -/
def Square.getWidth {R : Type} (s : Square R) : R := s.toRectangle.getWidth

/-- Inherited `Rectangle::getHeight` on a `Square`. -/
def Square.getHeight {R : Type} (s : Square R) : R := s.toRectangle.getHeight

/-- Inherited `Rectangle::setDimensions` on a `Square` (public inheritance,
neither overridden nor hidden by `Square`). -/
def Square.setDimensions {R : Type} (w h : R) (s : Square R) : Square R :=
  { toRectangle := s.toRectangle.setDimensions w h }

/-- Inherited `Shape::getArea` on a `Square`. -/
def Square.getArea {R : Type} (s : Square R) : R := s.toShape.getArea

/-- Inherited `Shape2D::getPerimeter` on a `Square`. -/
def Square.getPerimeter {R : Type} (s : Square R) : R := s.toShape2D.getPerimeter

/-- Inherited `Shape::getColor` on a `Square`. -/
def Square.getColor {R : Type} (s : Square R) : String := s.toShape.getColor

/-- Inherited `Shape::setColor` on a `Square`. -/
def Square.setColor {R : Type} (col : String) (s : Square R) : Square R :=
  { toRectangle := s.toRectangle.setColor col }

/-- One call of a state-changing member function of the public interface of
`Square`: its own `setSide` and what it inherits publicly from `Rectangle`,
`Shape2D` and `Shape`.  (`draw` has an empty body; the getters are `const`.) -/
inductive SquareCall (R : Type) where
  | setSide (side : R)
  | setDimensions (w h : R)
  | setColor (c : String)
  | calculateArea
  | calculatePerimeter
  | draw
deriving DecidableEq, Repr

/-- The object after one call. -/
def Square.call {R : Type} [Field R] (s : Square R) : SquareCall R → Square R
  | .setSide side => s.setSide side
  | .setDimensions w h => s.setDimensions w h
  | .setColor c => s.setColor c
  | .calculateArea => s.calculateArea.2
  | .calculatePerimeter => s.calculatePerimeter.2
  | .draw => s

/-- The object after a finite sequence of calls, first call first. -/
def Square.calls {R : Type} [Field R] (s : Square R) (cs : List (SquareCall R)) : Square R :=
  cs.foldl Square.call s

/-- The calls whose arguments name one side length: every call except a
`setDimensions(w, h)` with `w ≠ h`. -/
def SquareCall.equalSides {R : Type} : SquareCall R → Prop
  | .setDimensions w h => w = h
  | _ => True

/-! ## shapes_3d.h -/

/-- Members of `class Shape3D : public Shape`: adds the cached `volume` and
`surfaceArea`. -/
structure Shape3D (R : Type) extends Shape R where
  volume : R
  surfaceArea : R
deriving DecidableEq, Repr

/-- Constructor `Shape3D(color) : Shape(color), volume(0.0), surfaceArea(0.0)`. -/
def Shape3D.new {R : Type} [Field R] (color : String) : Shape3D R :=
  { toShape := Shape.new color, volume := 0, surfaceArea := 0 }

/-- Member `double getVolume() const { return volume; }`. -/
def Shape3D.getVolume {R : Type} (s : Shape3D R) : R := s.volume

/-- Member `double getSurfaceArea() const { return surfaceArea; }`. -/
def Shape3D.getSurfaceArea {R : Type} (s : Shape3D R) : R := s.surfaceArea

/-- Member `Shape3D::calculateArea`, `return calculateSurfaceArea();`.  The
call is virtual: `calculateSurfaceArea` is the override of the object's
dynamic class `α`, passed here as an argument. -/
def Shape3D.calculateArea {R α : Type} (calculateSurfaceArea : α → R × α) (self : α) : R × α :=
  calculateSurfaceArea self

/-- Members of `class Sphere : public Shape3D`: adds `radius`. -/
structure Sphere (R : Type) extends Shape3D R where
  radius : R
deriving DecidableEq, Repr

/-- Constructor `Sphere(color, r) : Shape3D(color), radius(r)`. -/
def Sphere.new {R : Type} [Field R] (color : String) (r : R) : Sphere R :=
  { toShape3D := Shape3D.new color, radius := r }

/-- Member `calculateVolume`:
`volume = (4.0/3.0) * M_PI * radius * radius * radius; return volume;`. -/
def Sphere.calculateVolume {R : Type} [Field R] (pi : R) (s : Sphere R) : R × Sphere R :=
  let s1 : Sphere R := { s with volume := (4 / 3) * pi * s.radius * s.radius * s.radius }
  (s1.volume, s1)

/-- Member `calculateSurfaceArea`:
`surfaceArea = 4 * M_PI * radius * radius; return surfaceArea;`. -/
def Sphere.calculateSurfaceArea {R : Type} [Field R] (pi : R) (s : Sphere R) : R × Sphere R :=
  let s1 : Sphere R := { s with surfaceArea := 4 * pi * s.radius * s.radius }
  (s1.surfaceArea, s1)

/-- Inherited `Shape3D::calculateArea` on a `Sphere`. -/
def Sphere.calculateArea {R : Type} [Field R] (pi : R) (s : Sphere R) : R × Sphere R :=
  Shape3D.calculateArea (Sphere.calculateSurfaceArea pi) s

/-- Member `double getRadius() const { return radius; }`. -/
def Sphere.getRadius {R : Type} (s : Sphere R) : R := s.radius

/-- Member `void setRadius(double r) { radius = r; }`. -/
def Sphere.setRadius {R : Type} (r : R) (s : Sphere R) : Sphere R :=
  { s with radius := r }

/-- Members of `class Cube : public Shape3D`: adds `side`. -/
structure Cube (R : Type) extends Shape3D R where
  side : R
deriving DecidableEq, Repr

/-- Constructor `Cube(color, s) : Shape3D(color), side(s)`. -/
def Cube.new {R : Type} [Field R] (color : String) (s : R) : Cube R :=
  { toShape3D := Shape3D.new color, side := s }

/-- Member `calculateVolume`: `volume = side * side * side; return volume;`. -/
def Cube.calculateVolume {R : Type} [Field R] (c : Cube R) : R × Cube R :=
  let c1 : Cube R := { c with volume := c.side * c.side * c.side }
  (c1.volume, c1)

/-- Member `calculateSurfaceArea`:
`surfaceArea = 6 * side * side; return surfaceArea;`. -/
def Cube.calculateSurfaceArea {R : Type} [Field R] (c : Cube R) : R × Cube R :=
  let c1 : Cube R := { c with surfaceArea := 6 * c.side * c.side }
  (c1.surfaceArea, c1)

/-- Inherited `Shape3D::calculateArea` on a `Cube`. -/
def Cube.calculateArea {R : Type} [Field R] (c : Cube R) : R × Cube R :=
  Shape3D.calculateArea Cube.calculateSurfaceArea c

/-- Member `double getSide() const { return side; }`. -/
def Cube.getSide {R : Type} (c : Cube R) : R := c.side

/-- Member `void setSide(double s) { side = s; }`. -/
def Cube.setSide {R : Type} (s : R) (c : Cube R) : Cube R :=
  { c with side := s }

/-- Members of `class Cylinder : public Shape3D`: adds `radius`, `height`. -/
structure Cylinder (R : Type) extends Shape3D R where
  radius : R
  height : R
deriving DecidableEq, Repr

/-- Constructor `Cylinder(color, r, h) : Shape3D(color), radius(r), height(h)`. -/
def Cylinder.new {R : Type} [Field R] (color : String) (r h : R) : Cylinder R :=
  { toShape3D := Shape3D.new color, radius := r, height := h }

/-- Member `calculateVolume`:
`volume = M_PI * radius * radius * height; return volume;`. -/
def Cylinder.calculateVolume {R : Type} [Field R] (pi : R) (c : Cylinder R) : R × Cylinder R :=
  let c1 : Cylinder R := { c with volume := pi * c.radius * c.radius * c.height }
  (c1.volume, c1)

/-- Member `calculateSurfaceArea`:
`surfaceArea = 2 * M_PI * radius * (radius + height); return surfaceArea;`. -/
def Cylinder.calculateSurfaceArea {R : Type} [Field R] (pi : R) (c : Cylinder R) :
    R × Cylinder R :=
  let c1 : Cylinder R := { c with surfaceArea := 2 * pi * c.radius * (c.radius + c.height) }
  (c1.surfaceArea, c1)

/-- Inherited `Shape3D::calculateArea` on a `Cylinder`. -/
def Cylinder.calculateArea {R : Type} [Field R] (pi : R) (c : Cylinder R) : R × Cylinder R :=
  Shape3D.calculateArea (Cylinder.calculateSurfaceArea pi) c

/-- Member `double getRadius() const { return radius; }`. -/
def Cylinder.getRadius {R : Type} (c : Cylinder R) : R := c.radius

/-- Member `double getHeight() const { return height; }`. -/
def Cylinder.getHeight {R : Type} (c : Cylinder R) : R := c.height

/-- Member `void setDimensions(double r, double h) { radius = r; height = h; }`. -/
def Cylinder.setDimensions {R : Type} (r h : R) (c : Cylinder R) : Cylinder R :=
  let c1 : Cylinder R := { c with radius := r }
  { c1 with height := h }

/-! ## advanced_shapes.h -/

/-- What a non-null `Shape2D*` returned by the factory points to: an object
of one of the three dynamic classes the factory constructs. -/
inductive Shape2DObj (R : Type) where
  | circle (c : Circle R)
  | rectangle (r : Rectangle R)
  | square (s : Square R)
deriving DecidableEq, Repr

/-- What a non-null `Shape3D*` returned by the factory points to. -/
inductive Shape3DObj (R : Type) where
  | sphere (s : Sphere R)
  | cube (c : Cube R)
  | cylinder (c : Cylinder R)
deriving DecidableEq, Repr

/-- Member `ConcreteShapeFactory::create2DShape(type, color)`; `nullptr` is
`none`, and `type == "circle"` is equality of `std::string` contents. -/
def ConcreteShapeFactory.create2DShape {R : Type} [Field R] (type color : String) :
    Option (Shape2DObj R) :=
  if type = "circle" then
    some (.circle (Circle.new color 1))
  else if type = "rectangle" then
    some (.rectangle (Rectangle.new color 1 1))
  else if type = "square" then
    some (.square (Square.new color 1))
  else
    none

/-- Member `ConcreteShapeFactory::create3DShape(type, color)`. -/
def ConcreteShapeFactory.create3DShape {R : Type} [Field R] (type color : String) :
    Option (Shape3DObj R) :=
  if type = "sphere" then
    some (.sphere (Sphere.new color 1))
  else if type = "cube" then
    some (.cube (Cube.new color 1))
  else if type = "cylinder" then
    some (.cylinder (Cylinder.new color 1 1))
  else
    none

/-! ## shapes_3d.h: inherited members and call sequences -/

/-- Inherited `Shape::getArea` on a `Sphere`. -/
def Sphere.getArea {R : Type} (s : Sphere R) : R := s.toShape.getArea

/-- Inherited `Shape3D::getVolume` on a `Sphere`. -/
def Sphere.getVolume {R : Type} (s : Sphere R) : R := s.toShape3D.getVolume

/-- Inherited `Shape3D::getSurfaceArea` on a `Sphere`. -/
def Sphere.getSurfaceArea {R : Type} (s : Sphere R) : R := s.toShape3D.getSurfaceArea

/-- Inherited `Shape::getColor` on a `Sphere`. -/
def Sphere.getColor {R : Type} (s : Sphere R) : String := s.toShape.getColor

/-- Inherited `Shape::setColor` on a `Sphere`. -/
def Sphere.setColor {R : Type} (col : String) (s : Sphere R) : Sphere R :=
  { s with toShape := s.toShape.setColor col }

/-- Inherited `Shape::getArea` on a `Cube`. -/
def Cube.getArea {R : Type} (c : Cube R) : R := c.toShape.getArea

/-- Inherited `Shape3D::getVolume` on a `Cube`. -/
def Cube.getVolume {R : Type} (c : Cube R) : R := c.toShape3D.getVolume

/-- Inherited `Shape3D::getSurfaceArea` on a `Cube`. -/
def Cube.getSurfaceArea {R : Type} (c : Cube R) : R := c.toShape3D.getSurfaceArea

/-- Inherited `Shape::getColor` on a `Cube`. -/
def Cube.getColor {R : Type} (c : Cube R) : String := c.toShape.getColor

/-- Inherited `Shape::setColor` on a `Cube`. -/
def Cube.setColor {R : Type} (col : String) (c : Cube R) : Cube R :=
  { c with toShape := c.toShape.setColor col }

/-- Inherited `Shape::getArea` on a `Cylinder`. -/
def Cylinder.getArea {R : Type} (c : Cylinder R) : R := c.toShape.getArea

/-- Inherited `Shape3D::getVolume` on a `Cylinder`. -/
def Cylinder.getVolume {R : Type} (c : Cylinder R) : R := c.toShape3D.getVolume

/-- Inherited `Shape3D::getSurfaceArea` on a `Cylinder`. -/
def Cylinder.getSurfaceArea {R : Type} (c : Cylinder R) : R := c.toShape3D.getSurfaceArea

/-- Inherited `Shape::getColor` on a `Cylinder`. -/
def Cylinder.getColor {R : Type} (c : Cylinder R) : String := c.toShape.getColor

/-- Inherited `Shape::setColor` on a `Cylinder`. -/
def Cylinder.setColor {R : Type} (col : String) (c : Cylinder R) : Cylinder R :=
  { c with toShape := c.toShape.setColor col }

/-- An object of class `α` together with what its caller has seen so far:
the value last returned by `calculateVolume()` and the value last returned
by `calculateSurfaceArea()` (also when it was called through
`Shape3D::calculateArea`), `none` while there has been no such call. -/
structure Observed (α R : Type) where
  obj : α
  lastVolume : Option R
  lastSurfaceArea : Option R
deriving DecidableEq, Repr

/-- A freshly constructed object, no call made yet. -/
def Observed.fresh {α R : Type} (obj : α) : Observed α R :=
  { obj := obj, lastVolume := none, lastSurfaceArea := none }

/-- One call of a state-changing member function of the public interface of
`Sphere` (own members and those inherited from `Shape3D` and `Shape`). -/
inductive SphereCall (R : Type) where
  | setRadius (r : R)
  | setColor (c : String)
  | calculateVolume
  | calculateSurfaceArea
  | calculateArea
  | draw
deriving DecidableEq, Repr

/-- The Sphere and the values seen by the caller after one call. -/
def Sphere.call {R : Type} [Field R] (pi : R) (o : Observed (Sphere R) R) :
    SphereCall R → Observed (Sphere R) R
  | .setRadius r => { o with obj := o.obj.setRadius r }
  | .setColor c => { o with obj := o.obj.setColor c }
  | .calculateVolume =>
    { o with obj := (o.obj.calculateVolume pi).2, lastVolume := some (o.obj.calculateVolume pi).1 }
  | .calculateSurfaceArea =>
    { o with obj := (o.obj.calculateSurfaceArea pi).2,
             lastSurfaceArea := some (o.obj.calculateSurfaceArea pi).1 }
  | .calculateArea =>
    { o with obj := (o.obj.calculateArea pi).2,
             lastSurfaceArea := some (o.obj.calculateArea pi).1 }
  | .draw => o

/-- One call of a state-changing member function of the public interface of
`Cube`. -/
inductive CubeCall (R : Type) where
  | setSide (s : R)
  | setColor (c : String)
  | calculateVolume
  | calculateSurfaceArea
  | calculateArea
  | draw
deriving DecidableEq, Repr

/-- The Cube and the values seen by the caller after one call. -/
def Cube.call {R : Type} [Field R] (o : Observed (Cube R) R) :
    CubeCall R → Observed (Cube R) R
  | .setSide s => { o with obj := o.obj.setSide s }
  | .setColor c => { o with obj := o.obj.setColor c }
  | .calculateVolume =>
    { o with obj := o.obj.calculateVolume.2, lastVolume := some o.obj.calculateVolume.1 }
  | .calculateSurfaceArea =>
    { o with obj := o.obj.calculateSurfaceArea.2,
             lastSurfaceArea := some o.obj.calculateSurfaceArea.1 }
  | .calculateArea =>
    { o with obj := o.obj.calculateArea.2, lastSurfaceArea := some o.obj.calculateArea.1 }
  | .draw => o

/-- One call of a state-changing member function of the public interface of
`Cylinder`. -/
inductive CylinderCall (R : Type) where
  | setDimensions (r h : R)
  | setColor (c : String)
  | calculateVolume
  | calculateSurfaceArea
  | calculateArea
  | draw
deriving DecidableEq, Repr

/-- The Cylinder and the values seen by the caller after one call. -/
def Cylinder.call {R : Type} [Field R] (pi : R) (o : Observed (Cylinder R) R) :
    CylinderCall R → Observed (Cylinder R) R
  | .setDimensions r h => { o with obj := o.obj.setDimensions r h }
  | .setColor c => { o with obj := o.obj.setColor c }
  | .calculateVolume =>
    { o with obj := (o.obj.calculateVolume pi).2, lastVolume := some (o.obj.calculateVolume pi).1 }
  | .calculateSurfaceArea =>
    { o with obj := (o.obj.calculateSurfaceArea pi).2,
             lastSurfaceArea := some (o.obj.calculateSurfaceArea pi).1 }
  | .calculateArea =>
    { o with obj := (o.obj.calculateArea pi).2,
             lastSurfaceArea := some (o.obj.calculateArea pi).1 }
  | .draw => o

/-- The Sphere and the values seen after a finite sequence of calls, first
call first. -/
def Sphere.calls {R : Type} [Field R] (pi : R) (o : Observed (Sphere R) R)
    (cs : List (SphereCall R)) : Observed (Sphere R) R :=
  cs.foldl (Sphere.call pi) o

/-- The Cube and the values seen after a finite sequence of calls. -/
def Cube.calls {R : Type} [Field R] (o : Observed (Cube R) R) (cs : List (CubeCall R)) :
    Observed (Cube R) R :=
  cs.foldl Cube.call o

/-- The Cylinder and the values seen after a finite sequence of calls. -/
def Cylinder.calls {R : Type} [Field R] (pi : R) (o : Observed (Cylinder R) R)
    (cs : List (CylinderCall R)) : Observed (Cylinder R) R :=
  cs.foldl (Cylinder.call pi) o

/-- The cached members of a 3D shape agree with what its caller has seen:
`area` is still the constructor's `0.0`, `volume` is the value last returned
by `calculateVolume()` (`0.0` before the first call), and `surfaceArea` the
value last returned by `calculateSurfaceArea()` (`0.0` before the first). -/
def Shape3D.coherent {R : Type} [Field R] (sh : Shape3D R) (lastVolume lastSurfaceArea : Option R) :
    Prop :=
  sh.getArea = 0 ∧ sh.getVolume = lastVolume.getD 0 ∧ sh.getSurfaceArea = lastSurfaceArea.getD 0

/-! ## advanced_shapes.h: AdvancedCircle and ShapeManager -/

/-- Members of `class AdvancedCircle : public Circle, public Drawable,
public Transformable`: adds `posX`, `posY`, `rotationAngle`, `scaleFactor`
and the `int renderMode` (the two interfaces have no data members). -/
structure AdvancedCircle (R : Type) extends Circle R where
  posX : R
  posY : R
  rotationAngle : R
  scaleFactor : R
  renderMode : Int
deriving DecidableEq, Repr

/-- Constructor `AdvancedCircle(color, radius, x = 0, y = 0) : Circle(color,
radius), posX(x), posY(y), rotationAngle(0), scaleFactor(1.0), renderMode(0)`. -/
def AdvancedCircle.new {R : Type} [Field R] (color : String) (radius : R)
    (x : R := 0) (y : R := 0) : AdvancedCircle R :=
  { toCircle := Circle.new color radius, posX := x, posY := y,
    rotationAngle := 0, scaleFactor := 1, renderMode := 0 }

/-- Member `void setRenderMode(int mode) { renderMode = mode; }`. -/
def AdvancedCircle.setRenderMode {R : Type} (mode : Int) (a : AdvancedCircle R) :
    AdvancedCircle R :=
  { a with renderMode := mode }

/-- Member `void translate(double x, double y, double z = 0) { posX += x;
posY += y; }`. -/
def AdvancedCircle.translate {R : Type} [Field R] (x y : R) (a : AdvancedCircle R)
    (_z : R := 0) : AdvancedCircle R :=
  let a1 : AdvancedCircle R := { a with posX := a.posX + x }
  { a1 with posY := a1.posY + y }

/-- Member `void rotate(double angle) { rotationAngle += angle; }`. -/
def AdvancedCircle.rotate {R : Type} [Field R] (angle : R) (a : AdvancedCircle R) :
    AdvancedCircle R :=
  { a with rotationAngle := a.rotationAngle + angle }

/-- Member `void scale(double factor) { scaleFactor *= factor; }`. -/
def AdvancedCircle.scale {R : Type} [Field R] (factor : R) (a : AdvancedCircle R) :
    AdvancedCircle R :=
  { a with scaleFactor := a.scaleFactor * factor }

/-- Member `double getX() const { return posX; }`. -/
def AdvancedCircle.getX {R : Type} (a : AdvancedCircle R) : R := a.posX

/-- Member `double getY() const { return posY; }`. -/
def AdvancedCircle.getY {R : Type} (a : AdvancedCircle R) : R := a.posY

/-- Member `double getRotation() const { return rotationAngle; }`. -/
def AdvancedCircle.getRotation {R : Type} (a : AdvancedCircle R) : R := a.rotationAngle

/-- Member `double getScaleFactor() const { return scaleFactor; }`. -/
def AdvancedCircle.getScaleFactor {R : Type} (a : AdvancedCircle R) : R := a.scaleFactor

/-- Inherited `Circle::setRadius` on an `AdvancedCircle`. -/
def AdvancedCircle.setRadius {R : Type} (r : R) (a : AdvancedCircle R) : AdvancedCircle R :=
  { a with toCircle := a.toCircle.setRadius r }

/-- Inherited `Shape::setColor` on an `AdvancedCircle`. -/
def AdvancedCircle.setColor {R : Type} (col : String) (a : AdvancedCircle R) :
    AdvancedCircle R :=
  { a with toCircle := a.toCircle.setColor col }

/-- Inherited `Circle::calculateArea` on an `AdvancedCircle`. -/
def AdvancedCircle.calculateArea {R : Type} [Field R] (pi : R) (a : AdvancedCircle R) :
    R × AdvancedCircle R :=
  let res := a.toCircle.calculateArea pi
  (res.1, { a with toCircle := res.2 })

/-- Inherited `Circle::calculatePerimeter` on an `AdvancedCircle`. -/
def AdvancedCircle.calculatePerimeter {R : Type} [Field R] (pi : R) (a : AdvancedCircle R) :
    R × AdvancedCircle R :=
  let res := a.toCircle.calculatePerimeter pi
  (res.1, { a with toCircle := res.2 })

/-- The trait members of an `AdvancedCircle`: `getX()`, `getY()`,
`getRotation()`, `getScaleFactor()` and the member `renderMode`. -/
def AdvancedCircle.traitState {R : Type} (a : AdvancedCircle R) : R × R × R × R × Int :=
  (a.getX, a.getY, a.getRotation, a.getScaleFactor, a.renderMode)

/-- The value of a C++ `int` (32 bits, two's complement) holding the
mathematical integer `x` after wrap-around.  Signed overflow is undefined
behaviour in C++; the model takes the wrap-around of the hardware. -/
def wrapInt32 (x : Int) : Int := (x + 2147483648) % 4294967296 - 2147483648

/-- The largest `int`. -/
def INT_MAX : Int := 2147483647

/-- Members of `class ShapeManager` of advanced_shapes.h: the `int shapeCount`
(the `static` pointer `instance` is not part of an object). -/
structure ShapeManager where
  shapeCount : Int
deriving DecidableEq, Repr

/-- Constructor `ShapeManager() : shapeCount(0)`. -/
def ShapeManager.new : ShapeManager := { shapeCount := 0 }

/-- Member `void addShape() { shapeCount++; }`. -/
def ShapeManager.addShape (m : ShapeManager) : ShapeManager :=
  { m with shapeCount := wrapInt32 (m.shapeCount + 1) }

/-- Member `void removeShape() { if (shapeCount > 0) shapeCount--; }`. -/
def ShapeManager.removeShape (m : ShapeManager) : ShapeManager :=
  if m.shapeCount > 0 then { m with shapeCount := wrapInt32 (m.shapeCount - 1) } else m

/-- Member `int getShapeCount() const { return shapeCount; }`. -/
def ShapeManager.getShapeCount (m : ShapeManager) : Int := m.shapeCount

/-- One call of a state-changing member function of `ShapeManager`. -/
inductive ManagerCall where
  | addShape
  | removeShape
deriving DecidableEq, Repr

/-- The manager after one call. -/
def ShapeManager.call (m : ShapeManager) : ManagerCall → ShapeManager
  | .addShape => m.addShape
  | .removeShape => m.removeShape

/-- The manager after a finite sequence of calls, first call first. -/
def ShapeManager.calls (m : ShapeManager) (cs : List ManagerCall) : ShapeManager :=
  cs.foldl ShapeManager.call m

/-- Whether, running the calls `cs` from `m`, every `addShape()` is called at
a count below `INT_MAX`, so that no increment overflows. -/
def ShapeManager.addsBelowIntMax (m : ShapeManager) : List ManagerCall → Bool
  | [] => true
  | .addShape :: cs => decide (m.shapeCount < INT_MAX) && m.addShape.addsBelowIntMax cs
  | .removeShape :: cs => m.removeShape.addsBelowIntMax cs

/-! ## IEEE binary64 arithmetic

A second reading of `double`, used where a claim bounds the rounded results:
a finite `double` is the rational it denotes (the two zeros are not told
apart), and an arithmetic operation returns the exact result rounded to the
nearest binary64 value, ties to even. -/

/-- The largest finite binary64 value, `(2^53 - 1) * 2^971`. -/
def Binary64.maxFinite : ℚ := (2 ^ 53 - 1) * 2 ^ 971

/-- The smallest positive binary64 value, `2^(-1074)`: the spacing of the
subnormal values. -/
def Binary64.minSubnormal : ℚ := 2 ^ (-1074 : ℤ)

/-- The exponent `e` such that the binary64 values around `x` are the integer
multiples of `2^e`: 52 below the binary exponent of `x`, and not below
`-1074` (subnormal range). -/
def Binary64.ulpExp (x : ℚ) : ℤ := max (Int.log 2 |x| - 52) (-1074)

/-- The integer nearest to `q`, the even one of the two when `q` lies half
way. -/
def Binary64.nearestInt (q : ℚ) : ℤ :=
  if q - ⌊q⌋ < 1 / 2 then ⌊q⌋
  else if 1 / 2 < q - ⌊q⌋ then ⌊q⌋ + 1
  else if ⌊q⌋ % 2 = 0 then ⌊q⌋
  else ⌊q⌋ + 1

/-- The binary64 value of the exact result `x` (round to nearest, ties to
even); `none` when that value is not finite (overflow to an infinity). -/
def Binary64.roundNearest (x : ℚ) : Option ℚ :=
  if |(Binary64.nearestInt (x / 2 ^ Binary64.ulpExp x) : ℚ) * 2 ^ Binary64.ulpExp x|
      ≤ Binary64.maxFinite then
    some ((Binary64.nearestInt (x / 2 ^ Binary64.ulpExp x) : ℚ) * 2 ^ Binary64.ulpExp x)
  else
    none

/-- The product `a * b` of two binary64 values. -/
def Binary64.mul (a b : ℚ) : Option ℚ := Binary64.roundNearest (a * b)


/-- The binary64 value of the `<cmath>` macro `M_PI`: the double nearest to
its literal `3.14159265358979323846`, which is `884279719003555 / 2^48`. -/
def Binary64.M_PI : ℚ := 884279719003555 / 281474976710656

/-- Member `Circle::calculateArea` in binary64 arithmetic, on a Circle whose
`double` members hold finite values: `area = M_PI * radius * radius; return
area;` with the product `M_PI * radius` rounded and its product with `radius`
rounded again.  `none` when a product is not finite. -/
def Circle.calculateAreaBinary64 (c : Circle ℚ) : Option (ℚ × Circle ℚ) :=
  (Binary64.mul Binary64.M_PI c.radius).bind fun t =>
    (Binary64.mul t c.radius).map fun a => (a, { c with area := a })

/-- Member `Circle::calculatePerimeter` in binary64 arithmetic: `perimeter =
2 * M_PI * radius; return perimeter;` with the product `2 * M_PI` rounded
and its product with `radius` rounded again.  `none` when a product is not
finite. -/
def Circle.calculatePerimeterBinary64 (c : Circle ℚ) : Option (ℚ × Circle ℚ) :=
  (Binary64.mul 2 Binary64.M_PI).bind fun t =>
    (Binary64.mul t c.radius).map fun p => (p, { c with perimeter := p })

end TestProject

/-! ## test/complex_example.cpp -/

namespace ComplexExample

/-- Members of `class ShapeManager` of complex_example.cpp:
`std::vector<std::unique_ptr<Shape>> shapes` and
`std::vector<std::unique_ptr<Shape3D>> shapes3D`.  The classes behind the
pointers are abstract; `α` and `β` stand for the objects owned. -/
structure ShapeManager (α β : Type) where
  shapes : List α
  shapes3D : List β
deriving DecidableEq, Repr

/-- Constructor `ShapeManager() = default`: both vectors empty. -/
def ShapeManager.new {α β : Type} : ShapeManager α β := { shapes := [], shapes3D := [] }

/-- Modelled from the spec: the body of `ShapeManager::addShape`, declared in
complex_example.cpp and defined nowhere in the repository.  The spec:
"transfers ownership into the respective collection", the collection being
"ordered by insertion". -/
def ShapeManager.addShape {α β : Type} (shape : α) (m : ShapeManager α β) : ShapeManager α β :=
  { m with shapes := m.shapes ++ [shape] }

/-- Modelled from the spec: the body of `ShapeManager::addShape3D`, declared
and not defined; as `addShape`, on the 3D collection. -/
def ShapeManager.addShape3D {α β : Type} (shape : β) (m : ShapeManager α β) :
    ShapeManager α β :=
  { m with shapes3D := m.shapes3D ++ [shape] }

/-- Modelled from the spec: the body of `ShapeManager::getTotalArea`, declared
and not defined.  The spec: "sum of `computeArea()` over the 2D collection,
evaluated eagerly at call time (not cached)".  `area` is the pure virtual
`Shape::area() const` of the objects owned, whose overrides have no body in
the repository either; the sum runs over the vector front to back. -/
def ShapeManager.getTotalArea {α β R : Type} [Field R] (area : α → R) (m : ShapeManager α β) :
    R :=
  m.shapes.foldl (fun total shape => total + area shape) 0

/-- Modelled from the spec: the body of `ShapeManager::getTotalVolume`,
declared and not defined.  The spec: "analogous sum over the 3D collection";
`volume` is the pure virtual `Shape3D::volume() const`. -/
def ShapeManager.getTotalVolume {α β R : Type} [Field R] (volume : β → R)
    (m : ShapeManager α β) : R :=
  m.shapes3D.foldl (fun total shape => total + volume shape) 0

/-- Member `size_t getShapeCount() const { return shapes.size(); }`. -/
def ShapeManager.getShapeCount {α β : Type} (m : ShapeManager α β) : Nat := m.shapes.length

/-- Member `size_t getShape3DCount() const { return shapes3D.size(); }`. -/
def ShapeManager.getShape3DCount {α β : Type} (m : ShapeManager α β) : Nat := m.shapes3D.length

/-- Modelled from the spec: a member "mutated after insertion" (spec 4.5),
that is, changed through a pointer or reference its former owner kept: the
object at position `i` of the 2D collection is now in the state `shape`.
No member function of `ShapeManager` does this. -/
def ShapeManager.mutateShape {α β : Type} (i : Nat) (shape : α) (m : ShapeManager α β) :
    ShapeManager α β :=
  { m with shapes := m.shapes.set i shape }

/-- Modelled from the spec: as `mutateShape`, for the object at position `i`
of the 3D collection. -/
def ShapeManager.mutateShape3D {α β : Type} (i : Nat) (shape : β) (m : ShapeManager α β) :
    ShapeManager α β :=
  { m with shapes3D := m.shapes3D.set i shape }

/-- One call that hands a shape over to a manager. -/
inductive AddCall (α β : Type) where
  | addShape (shape : α)
  | addShape3D (shape : β)
deriving DecidableEq, Repr

/-- The manager after one call. -/
def ShapeManager.call {α β : Type} (m : ShapeManager α β) : AddCall α β → ShapeManager α β
  | .addShape shape => m.addShape shape
  | .addShape3D shape => m.addShape3D shape

/-- The manager after a finite sequence of calls, first call first. -/
def ShapeManager.calls {α β : Type} (m : ShapeManager α β) (cs : List (AddCall α β)) :
    ShapeManager α β :=
  cs.foldl ShapeManager.call m

/-- The shapes handed over with `addShape` in a sequence of calls, in call
order. -/
def AddCall.added {α β : Type} : List (AddCall α β) → List α
  | [] => []
  | .addShape shape :: cs => shape :: AddCall.added cs
  | .addShape3D _ :: cs => AddCall.added cs

/-- The shapes handed over with `addShape3D` in a sequence of calls, in call
order. -/
def AddCall.added3D {α β : Type} : List (AddCall α β) → List β
  | [] => []
  | .addShape _ :: cs => AddCall.added3D cs
  | .addShape3D shape :: cs => shape :: AddCall.added3D cs

end ComplexExample

namespace TestProject

/-! ## Theorems -/

/-- The nearest integer is at most one half away. -/
theorem Binary64_nearestInt_abs_sub_le (q : ℚ) : |(Binary64.nearestInt q : ℚ) - q| ≤ 1 / 2 := by
  have h1 : (⌊q⌋ : ℚ) ≤ q := Int.floor_le q
  have h2 : q < ⌊q⌋ + 1 := Int.lt_floor_add_one q
  unfold Binary64.nearestInt
  split_ifs with ha hb hc
  · rw [abs_le]; constructor <;> linarith
  · push_cast; rw [abs_le]; constructor <;> linarith
  · have hb2 : q - ⌊q⌋ ≤ 1 / 2 := not_lt.mp hb
    rw [abs_le]; constructor <;> linarith
  · have ha2 : 1 / 2 ≤ q - ⌊q⌋ := not_lt.mp ha
    push_cast; rw [abs_le]; constructor <;> linarith

/-- An integer less than one half away is the nearest integer. -/
theorem Binary64_nearestInt_eq (q : ℚ) (n : ℤ) (h : |q - n| < 1 / 2) :
    Binary64.nearestInt q = n := by
  rw [abs_lt] at h
  obtain ⟨hl, hu⟩ := h
  have hfl : ⌊q⌋ = n ∨ ⌊q⌋ = n - 1 := by
    have h1 : n - 1 ≤ ⌊q⌋ := by
      rw [Int.le_floor]; push_cast; linarith
    have h2 : ⌊q⌋ < n + 1 := by
      rw [Int.floor_lt]; push_cast; linarith
    omega
  unfold Binary64.nearestInt
  rcases hfl with hf | hf
  · have hq : q - ⌊q⌋ < 1 / 2 := by rw [hf]; linarith
    rw [if_pos hq, hf]
  · have hq : 1 / 2 < q - ⌊q⌋ := by rw [hf]; push_cast; linarith
    rw [if_neg (not_lt.mpr hq.le), if_pos hq, hf]
    ring

/-- The spacing exponent of a value in the binade `[2^(e+52), 2^(e+53))`, at or
above the subnormal range, is `e`. -/
theorem Binary64_ulpExp_eq (x : ℚ) (e : ℤ) (hlo : (2 : ℚ) ^ (e + 52) ≤ |x|)
    (hhi : |x| < (2 : ℚ) ^ (e + 53)) (he : -1074 ≤ e) : Binary64.ulpExp x = e := by
  have hpos : 0 < |x| := lt_of_lt_of_le (by positivity) hlo
  have h1 : e + 52 ≤ Int.log 2 |x| := by
    rw [← Int.zpow_le_iff_le_log (by norm_num) hpos]
    exact_mod_cast hlo
  have h2 : Int.log 2 |x| < e + 53 := by
    rw [← Int.lt_zpow_iff_log_lt (by norm_num) hpos]
    exact_mod_cast hhi
  unfold Binary64.ulpExp
  omega

/-- Certificate for one rounding: `x` lies in the binade whose values are the
multiples of `2^e`, and `n * 2^e` is the multiple less than half a spacing
away. -/
theorem Binary64_roundNearest_eq (x : ℚ) (e n : ℤ) (hlo : (2 : ℚ) ^ (e + 52) ≤ |x|)
    (hhi : |x| < (2 : ℚ) ^ (e + 53)) (he : -1074 ≤ e)
    (hn : |x / 2 ^ e - n| < 1 / 2) (hmax : |(n : ℚ) * 2 ^ e| ≤ Binary64.maxFinite) :
    Binary64.roundNearest x = some ((n : ℚ) * 2 ^ e) := by
  unfold Binary64.roundNearest
  rw [Binary64_ulpExp_eq x e hlo hhi he, Binary64_nearestInt_eq _ n hn, if_pos hmax]

/-- The largest finite binary64 value is at least `2^971`. -/
theorem Binary64_maxFinite_ge : (2 : ℚ) ^ 971 ≤ Binary64.maxFinite := by
  unfold Binary64.maxFinite
  have hP : (0 : ℚ) < 2 ^ 971 := by positivity
  have h53 : (1 : ℚ) ≤ 2 ^ 53 - 1 := by norm_num
  calc (2 : ℚ) ^ 971 = 1 * 2 ^ 971 := by ring
    _ ≤ (2 ^ 53 - 1) * 2 ^ 971 := mul_le_mul_of_nonneg_right h53 hP.le

/-- The spacing of the subnormal binary64 values is positive and at most
`1 / 2^200`. -/
theorem Binary64_minSubnormal_bounds :
    0 < Binary64.minSubnormal ∧ Binary64.minSubnormal ≤ 1 / 2 ^ 200 := by
  unfold Binary64.minSubnormal
  refine ⟨by positivity, ?_⟩
  calc (2 : ℚ) ^ (-1074 : ℤ) ≤ 2 ^ (-200 : ℤ) := zpow_le_zpow_right₀ (by norm_num) (by norm_num)
    _ = 1 / 2 ^ 200 := by norm_num [zpow_neg]

/-- Rounding error: an exact result of magnitude at most `2^100` rounds to a
finite value with relative error at most `2^(-53)`, up to the subnormal
spacing. -/
theorem Binary64_roundNearest_error (x : ℚ) (hx : |x| ≤ 2 ^ 100) :
    ∃ y, Binary64.roundNearest x = some y ∧
      |y - x| ≤ |x| / 2 ^ 53 + Binary64.minSubnormal := by
  have hs : (0 : ℚ) < 2 ^ Binary64.ulpExp x := by positivity
  have hη : 0 < Binary64.minSubnormal := Binary64_minSubnormal_bounds.1
  have hη1 : Binary64.minSubnormal ≤ 1 := by
    have h := Binary64_minSubnormal_bounds.2
    have h2 : (1 : ℚ) / 2 ^ 200 ≤ 1 := by norm_num
    exact h.trans h2
  have hn := Binary64_nearestInt_abs_sub_le (x / 2 ^ Binary64.ulpExp x)
  have herr : |(Binary64.nearestInt (x / 2 ^ Binary64.ulpExp x) : ℚ) * 2 ^ Binary64.ulpExp x - x|
      ≤ 2 ^ Binary64.ulpExp x / 2 := by
    have hfac : (Binary64.nearestInt (x / 2 ^ Binary64.ulpExp x) : ℚ) * 2 ^ Binary64.ulpExp x - x
        = ((Binary64.nearestInt (x / 2 ^ Binary64.ulpExp x) : ℚ) - x / 2 ^ Binary64.ulpExp x)
          * 2 ^ Binary64.ulpExp x := by
      field_simp
    rw [hfac, abs_mul, abs_of_pos hs]
    calc _ ≤ 1 / 2 * 2 ^ Binary64.ulpExp x := mul_le_mul_of_nonneg_right hn hs.le
      _ = _ := by ring
  have hulp : (2 : ℚ) ^ Binary64.ulpExp x / 2 ≤ |x| / 2 ^ 53 + Binary64.minSubnormal ∨ x = 0 := by
    by_cases hx0 : x = 0
    · exact Or.inr hx0
    left
    have hpos : 0 < |x| := abs_pos.mpr hx0
    have hnn : 0 ≤ |x| / 2 ^ 53 := div_nonneg (abs_nonneg x) (by norm_num)
    unfold Binary64.ulpExp
    rcases le_total (Int.log 2 |x| - 52) (-1074) with hle | hle
    · rw [max_eq_right hle]
      have hsub : (2 : ℚ) ^ (-1074 : ℤ) = Binary64.minSubnormal := rfl
      rw [hsub]
      linarith
    · rw [max_eq_left hle]
      have hlog : (2 : ℚ) ^ Int.log 2 |x| ≤ |x| := by
        have := Int.zpow_log_le_self (b := 2) (by norm_num) hpos
        exact_mod_cast this
      have hsplit : (2 : ℚ) ^ (Int.log 2 |x| - 52) / 2 = 2 ^ Int.log 2 |x| / 2 ^ 53 := by
        rw [zpow_sub₀ (by norm_num)]
        norm_num
        ring
      rw [hsplit]
      have h53 : (2 : ℚ) ^ Int.log 2 |x| / 2 ^ 53 ≤ |x| / 2 ^ 53 :=
        div_le_div_of_nonneg_right hlog (by norm_num)
      linarith
  have hfinal : |(Binary64.nearestInt (x / 2 ^ Binary64.ulpExp x) : ℚ) * 2 ^ Binary64.ulpExp x - x|
      ≤ |x| / 2 ^ 53 + Binary64.minSubnormal := by
    rcases hulp with h | h
    · exact herr.trans h
    · subst h
      have h0 : Binary64.nearestInt (0 / 2 ^ Binary64.ulpExp 0) = 0 := by
        apply Binary64_nearestInt_eq
        norm_num
      rw [h0]
      simp only [Int.cast_zero, zero_mul, sub_zero, abs_zero, zero_div, zero_add]
      exact hη.le
  refine ⟨(Binary64.nearestInt (x / 2 ^ Binary64.ulpExp x) : ℚ) * 2 ^ Binary64.ulpExp x, ?_,
    hfinal⟩
  unfold Binary64.roundNearest
  rw [if_pos]
  have habs : |(Binary64.nearestInt (x / 2 ^ Binary64.ulpExp x) : ℚ) * 2 ^ Binary64.ulpExp x|
      ≤ |x| + (|x| / 2 ^ 53 + Binary64.minSubnormal) := by
    have := abs_sub_abs_le_abs_sub
      ((Binary64.nearestInt (x / 2 ^ Binary64.ulpExp x) : ℚ) * 2 ^ Binary64.ulpExp x) x
    linarith
  have hbig : |x| + (|x| / 2 ^ 53 + Binary64.minSubnormal) ≤ Binary64.maxFinite := by
    have h1 : |x| / 2 ^ 53 ≤ |x| := by
      apply div_le_self (abs_nonneg x)
      norm_num
    have h3 : (2 : ℚ) * 2 ^ 100 + 1 ≤ 2 ^ 971 := by
      calc (2 : ℚ) * 2 ^ 100 + 1 ≤ 2 ^ 102 := by norm_num
        _ ≤ 2 ^ 971 := pow_le_pow_right₀ (by norm_num) (by norm_num)
    have h4 := Binary64_maxFinite_ge
    linarith
  exact habs.trans hbig

/-- The binary64 `M_PI` is the rounded literal. -/
theorem Binary64_M_PI_eq : Binary64.roundNearest M_PI = some Binary64.M_PI := by
  have h := Binary64_roundNearest_eq M_PI (-51) 7074237752028440
    (by norm_num [M_PI, abs_of_pos]) (by norm_num [M_PI, abs_of_pos]) (by norm_num)
    (by
      rw [abs_lt]
      constructor <;> norm_num [M_PI, zpow_neg])
    (by
      have h1 : |((7074237752028440 : ℤ) : ℚ) * 2 ^ (-51 : ℤ)| ≤ 2 ^ 971 := by
        calc |((7074237752028440 : ℤ) : ℚ) * 2 ^ (-51 : ℤ)| ≤ 2 ^ 2 := by
              rw [abs_le]
              constructor <;> norm_num [zpow_neg]
          _ ≤ 2 ^ 971 := pow_le_pow_right₀ (by norm_num) (by norm_num)
      exact h1.trans Binary64_maxFinite_ge)
  rw [h]
  norm_num [Binary64.M_PI, zpow_neg]

/-- Unfolding of `calculateAreaBinary64` when both products are finite. -/
theorem Circle_calculateAreaBinary64_eq (c : Circle ℚ) (t a : ℚ)
    (ht : Binary64.mul Binary64.M_PI c.radius = some t)
    (ha : Binary64.mul t c.radius = some a) :
    c.calculateAreaBinary64 = some (a, { c with area := a }) := by
  unfold Circle.calculateAreaBinary64
  rw [ht, Option.some_bind, ha, Option.map_some']

/-- A value of magnitude at most `2^100` is below the largest finite binary64
value. -/
theorem Binary64_le_maxFinite (z : ℚ) (hz : |z| ≤ 2 ^ 100) : |z| ≤ Binary64.maxFinite :=
  hz.trans ((pow_le_pow_right₀ (by norm_num) (by norm_num)).trans Binary64_maxFinite_ge)

/-- In binary64, `M_PI * 1e6` is `6746518852261009 / 2^31`. -/
theorem Binary64_mul_M_PI_1e6 :
    Binary64.mul Binary64.M_PI 1000000 = some (6746518852261009 / 2147483648) := by
  have h := Binary64_roundNearest_eq (Binary64.M_PI * 1000000) (-31) 6746518852261009
    (by norm_num [Binary64.M_PI, abs_of_pos]) (by norm_num [Binary64.M_PI, abs_of_pos])
    (by norm_num)
    (by
      rw [abs_lt]
      constructor <;> norm_num [Binary64.M_PI, zpow_neg])
    (Binary64_le_maxFinite _ (by
      rw [abs_le]
      constructor <;> norm_num [zpow_neg]))
  rw [Binary64.mul, h]
  norm_num [zpow_neg]

/-- In binary64, `(M_PI * 1e6) * 1e6` is `804247719318987 / 2^8`. -/
theorem Binary64_mul_M_PI_1e6_1e6 :
    Binary64.mul (6746518852261009 / 2147483648) 1000000 = some (804247719318987 / 256) := by
  have h := Binary64_roundNearest_eq (6746518852261009 / 2147483648 * 1000000) (-11)
    6433981754551896
    (by norm_num [abs_of_pos]) (by norm_num [abs_of_pos]) (by norm_num)
    (by
      rw [abs_lt]
      constructor <;> norm_num [zpow_neg])
    (Binary64_le_maxFinite _ (by
      rw [abs_le]
      constructor <;> norm_num [zpow_neg]))
  rw [Binary64.mul, h]
  norm_num [zpow_neg]

/-- Unfolding of `calculatePerimeterBinary64` when both products are finite. -/
theorem Circle_calculatePerimeterBinary64_eq (c : Circle ℚ) (t p : ℚ)
    (ht : Binary64.mul 2 Binary64.M_PI = some t)
    (hp : Binary64.mul t c.radius = some p) :
    c.calculatePerimeterBinary64 = some (p, { c with perimeter := p }) := by
  unfold Circle.calculatePerimeterBinary64
  rw [ht, Option.some_bind, hp, Option.map_some']

/-- Two roundings in a row: when `0 ≤ x ≤ X ≤ 10000` and `0 ≤ r ≤ 1000`, the
binary64 value of `x`, multiplied in binary64 by `r`, is finite and differs
from the exact `x * r` by at most `(2 * X + 1) * 1000 / 2^53` and a multiple
of the subnormal spacing. -/
theorem Binary64_round_mul_error (x r X : ℚ) (hx0 : 0 ≤ x) (hx1 : x ≤ X) (hX : X ≤ 10000)
    (hr0 : 0 ≤ r) (hr1 : r ≤ 1000) :
    ∃ t a, Binary64.roundNearest x = some t ∧ Binary64.mul t r = some a ∧
      |a - x * r| ≤ (2 * X + 1) * 1000 / 2 ^ 53 + 1001 * Binary64.minSubnormal := by
  have hη0 := Binary64_minSubnormal_bounds.1
  have hη1 := Binary64_minSubnormal_bounds.2
  have hX0 : 0 ≤ X := hx0.trans hx1
  have hxabs : |x| ≤ 2 ^ 100 := by
    rw [abs_of_nonneg hx0]
    exact (hx1.trans hX).trans (by norm_num)
  obtain ⟨t, ht, het⟩ := Binary64_roundNearest_error x hxabs
  rw [abs_of_nonneg hx0] at het
  have hd1 : x / 2 ^ 53 ≤ X / 2 ^ 53 := div_le_div_of_nonneg_right hx1 (by norm_num)
  have het2 : |t - x| ≤ X / 2 ^ 53 + Binary64.minSubnormal := by linarith
  have hXu : X / 2 ^ 53 ≤ 1 / 2 := by
    have h := div_le_div_of_nonneg_right hX (show (0 : ℚ) ≤ 2 ^ 53 by norm_num)
    have h2 : (10000 : ℚ) / 2 ^ 53 ≤ 1 / 2 := by norm_num
    exact h.trans h2
  have hXu0 : 0 ≤ X / 2 ^ 53 := div_nonneg hX0 (by norm_num)
  have hηhalf : Binary64.minSubnormal ≤ 1 / 2 := hη1.trans (by norm_num)
  have htabs : |t| ≤ X + 1 := by
    have h1 := abs_le.mp het2
    rw [abs_le]
    constructor <;> linarith [h1.1, h1.2]
  have hx2b : |t * r| ≤ (X + 1) * 1000 := by
    rw [abs_mul, abs_of_nonneg hr0]
    exact mul_le_mul htabs hr1 hr0 (by linarith)
  have hx2 : |t * r| ≤ 2 ^ 100 := by
    have h1 : (X + 1) * 1000 ≤ 10001 * 1000 := by linarith
    have h2 : (10001 : ℚ) * 1000 ≤ 2 ^ 100 := by norm_num
    exact hx2b.trans (h1.trans h2)
  obtain ⟨a, ha, hea⟩ := Binary64_roundNearest_error (t * r) hx2
  have hd2 : |t * r| / 2 ^ 53 ≤ (X + 1) * 1000 / 2 ^ 53 :=
    div_le_div_of_nonneg_right hx2b (by norm_num)
  have hea2 : |a - t * r| ≤ (X + 1) * 1000 / 2 ^ 53 + Binary64.minSubnormal := by linarith
  refine ⟨t, a, ht, ha, ?_⟩
  have hsplit : a - x * r = (a - t * r) + (t - x) * r := by ring
  have hmid : |(t - x) * r| ≤ (X / 2 ^ 53 + Binary64.minSubnormal) * 1000 := by
    rw [abs_mul, abs_of_nonneg hr0]
    exact mul_le_mul het2 hr1 hr0 (by linarith [hη0.le])
  have htri : |a - x * r| ≤ |a - t * r| + |(t - x) * r| := by
    rw [hsplit]
    exact abs_add _ _
  have hring : (X + 1) * 1000 / 2 ^ 53 + Binary64.minSubnormal
      + (X / 2 ^ 53 + Binary64.minSubnormal) * 1000
      = (2 * X + 1) * 1000 / 2 ^ 53 + 1001 * Binary64.minSubnormal := by ring
  linarith

/-- The binary64 `M_PI` lies within `1.23e-16` of `π`. -/
theorem Binary64_M_PI_near_pi :
    |((Binary64.M_PI : ℚ) : ℝ) - Real.pi| ≤ 123 / 10 ^ 18 := by
  have h1 := Real.pi_gt_d20
  have h2 := Real.pi_lt_d20
  rw [abs_le]
  unfold Binary64.M_PI
  push_cast
  constructor <;> norm_num at h1 h2 ⊢ <;> linarith

/-- In binary64 arithmetic a Circle constructed with radius `0 < q ≤ 1000`
returns finite values within `1e-9` of `π·q²` and `2·π·q`. -/
theorem Circle_binary64_within_tolerance (color : String) (q : ℚ) (hq0 : 0 < q)
    (hq1 : q ≤ 1000) :
    (∃ a, (Circle.new color q).calculateAreaBinary64 =
        some (a, { Circle.new color q with area := a }) ∧
      |((a : ℚ) : ℝ) - Real.pi * ((q : ℚ) : ℝ) ^ 2| ≤ 1 / 10 ^ 9) ∧
    (∃ p, (Circle.new color q).calculatePerimeterBinary64 =
        some (p, { Circle.new color q with perimeter := p }) ∧
      |((p : ℚ) : ℝ) - 2 * Real.pi * ((q : ℚ) : ℝ)| ≤ 1 / 10 ^ 9) := by
  have hη1 := Binary64_minSubnormal_bounds.2
  have hP0 : (3 : ℚ) ≤ Binary64.M_PI := by norm_num [Binary64.M_PI]
  have hP1 : Binary64.M_PI ≤ 315 / 100 := by norm_num [Binary64.M_PI]
  have hpi := Binary64_M_PI_near_pi
  have hqR0 : (0 : ℝ) < ((q : ℚ) : ℝ) := by exact_mod_cast hq0
  have hqR1 : ((q : ℚ) : ℝ) ≤ 1000 := by exact_mod_cast hq1
  constructor
  · -- area: round (M_PI * q), then times q
    have hx0 : 0 ≤ Binary64.M_PI * q := mul_nonneg (by linarith) hq0.le
    have hx1 : Binary64.M_PI * q ≤ 3150 := by
      calc Binary64.M_PI * q ≤ 315 / 100 * 1000 := mul_le_mul hP1 hq1 hq0.le (by norm_num)
        _ = 3150 := by norm_num
    obtain ⟨t, a, ht, ha, herr⟩ := Binary64_round_mul_error (Binary64.M_PI * q) q 3150
      hx0 hx1 (by norm_num) hq0.le hq1
    refine ⟨a, Circle_calculateAreaBinary64_eq (Circle.new color q) t a ht ha, ?_⟩
    have hrat : |a - Binary64.M_PI * q * q| ≤ 7 / 10 ^ 10 := by
      have hnum : ((2 : ℚ) * 3150 + 1) * 1000 / 2 ^ 53 + 1001 * (1 / 2 ^ 200) ≤ 7 / 10 ^ 10 := by
        norm_num
      linarith
    have hreal : |((a : ℚ) : ℝ) - ((Binary64.M_PI : ℚ) : ℝ) * (q : ℝ) * (q : ℝ)|
        ≤ 7 / 10 ^ 10 := by
      have h := (Rat.cast_le (K := ℝ)).mpr hrat
      push_cast at h
      exact h
    have hsplit : ((a : ℚ) : ℝ) - Real.pi * (q : ℝ) ^ 2
        = (((a : ℚ) : ℝ) - ((Binary64.M_PI : ℚ) : ℝ) * (q : ℝ) * (q : ℝ))
          + (((Binary64.M_PI : ℚ) : ℝ) - Real.pi) * ((q : ℝ) * (q : ℝ)) := by ring
    have hqq0 : (0 : ℝ) ≤ (q : ℝ) * (q : ℝ) := mul_nonneg hqR0.le hqR0.le
    have hqq : (q : ℝ) * (q : ℝ) ≤ 1000 * 1000 := mul_le_mul hqR1 hqR1 hqR0.le (by norm_num)
    have hmid : |(((Binary64.M_PI : ℚ) : ℝ) - Real.pi) * ((q : ℝ) * (q : ℝ))|
        ≤ 123 / 10 ^ 18 * (1000 * 1000) := by
      rw [abs_mul, abs_of_nonneg hqq0]
      exact mul_le_mul hpi hqq hqq0 (by norm_num)
    rw [hsplit]
    calc _ ≤ _ + _ := abs_add _ _
      _ ≤ 7 / 10 ^ 10 + 123 / 10 ^ 18 * (1000 * 1000) := add_le_add hreal hmid
      _ ≤ 1 / 10 ^ 9 := by norm_num
  · -- perimeter: round (2 * M_PI), then times q
    have hx0 : (0 : ℚ) ≤ 2 * Binary64.M_PI := by linarith
    have hx1 : 2 * Binary64.M_PI ≤ 63 / 10 := by linarith
    obtain ⟨t, p, ht, hp, herr⟩ := Binary64_round_mul_error (2 * Binary64.M_PI) q (63 / 10)
      hx0 hx1 (by norm_num) hq0.le hq1
    refine ⟨p, Circle_calculatePerimeterBinary64_eq (Circle.new color q) t p ht hp, ?_⟩
    have hrat : |p - 2 * Binary64.M_PI * q| ≤ 1 / 10 ^ 11 := by
      have hnum : ((2 : ℚ) * (63 / 10) + 1) * 1000 / 2 ^ 53 + 1001 * (1 / 2 ^ 200)
          ≤ 1 / 10 ^ 11 := by
        norm_num
      linarith
    have hreal : |((p : ℚ) : ℝ) - 2 * ((Binary64.M_PI : ℚ) : ℝ) * (q : ℝ)| ≤ 1 / 10 ^ 11 := by
      have h := (Rat.cast_le (K := ℝ)).mpr hrat
      push_cast at h
      exact h
    have hsplit : ((p : ℚ) : ℝ) - 2 * Real.pi * (q : ℝ)
        = (((p : ℚ) : ℝ) - 2 * ((Binary64.M_PI : ℚ) : ℝ) * (q : ℝ))
          + (((Binary64.M_PI : ℚ) : ℝ) - Real.pi) * (2 * (q : ℝ)) := by ring
    have hmid : |(((Binary64.M_PI : ℚ) : ℝ) - Real.pi) * (2 * (q : ℝ))|
        ≤ 123 / 10 ^ 18 * (2 * 1000) := by
      rw [abs_mul, abs_of_nonneg (by linarith : (0 : ℝ) ≤ 2 * (q : ℝ))]
      exact mul_le_mul hpi (by linarith) (by linarith) (by norm_num)
    rw [hsplit]
    calc _ ≤ _ + _ := abs_add _ _
      _ ≤ 1 / 10 ^ 11 + 123 / 10 ^ 18 * (2 * 1000) := add_le_add hreal hmid
      _ ≤ 1 / 10 ^ 9 := by norm_num

/-- C1, the claim fails: in binary64 arithmetic the Circle constructed with
radius `1e6` returns from `calculateArea()` the double
`804247719318987 / 256 = 3141592653589.79296875`, which is more than `1e-4`,
so more than the tolerance `1e-9`, away from `π·r²`. -/
theorem Circle_binary64_area_outside_tolerance :
    (Circle.new "red" (1000000 : ℚ)).calculateAreaBinary64 =
      some (804247719318987 / 256,
        { color := "red", area := 804247719318987 / 256, perimeter := 0, radius := 1000000 }) ∧
    (1 / 10 ^ 9 : ℝ) < 1 / 10 ^ 4 ∧
    (1 / 10 ^ 4 : ℝ) <
      |(((804247719318987 / 256 : ℚ)) : ℝ) - Real.pi * ((1000000 : ℚ) : ℝ) ^ 2| := by
  refine ⟨Circle_calculateAreaBinary64_eq (Circle.new "red" 1000000) _ _
    Binary64_mul_M_PI_1e6 Binary64_mul_M_PI_1e6_1e6, by norm_num, ?_⟩
  have hpi := Real.pi_gt_d20
  have hlt : (((804247719318987 / 256 : ℚ)) : ℝ) - Real.pi * ((1000000 : ℚ) : ℝ) ^ 2
      < -(1 / 10 ^ 4) := by
    push_cast
    norm_num at hpi ⊢
    linarith
  rw [lt_abs]
  right
  linarith

/-- C1 as amended: a Circle constructed with radius `r > 0` and any colour
returns `π·r²` from `calculateArea()` and `2·π·r` from `calculatePerimeter()`
in exact arithmetic (`M_PI` read as `π`); and for `0 < q ≤ 1000` the doubles
returned in binary64 arithmetic are finite and within `1e-9` of `π·q²` and
`2·π·q`. -/
theorem Circle_new_area_perimeter {R : Type} [LinearOrderedField R]
    (pi : R) (color : String) (r : R) (_hr : 0 < r) (q : ℚ) (hq0 : 0 < q) (hq1 : q ≤ 1000) :
    (((Circle.new color r).calculateArea pi).1 = pi * r ^ 2 ∧
      ((Circle.new color r).calculatePerimeter pi).1 = 2 * pi * r) ∧
    (∃ a, (Circle.new color q).calculateAreaBinary64 =
        some (a, { Circle.new color q with area := a }) ∧
      |((a : ℚ) : ℝ) - Real.pi * ((q : ℚ) : ℝ) ^ 2| ≤ 1 / 10 ^ 9) ∧
    (∃ p, (Circle.new color q).calculatePerimeterBinary64 =
        some (p, { Circle.new color q with perimeter := p }) ∧
      |((p : ℚ) : ℝ) - 2 * Real.pi * ((q : ℚ) : ℝ)| ≤ 1 / 10 ^ 9) := by
  refine ⟨⟨?_, ?_⟩, Circle_binary64_within_tolerance color q hq0 hq1⟩
  · simp only [Circle.calculateArea, Circle.new]
    ring
  · simp only [Circle.calculatePerimeter, Circle.new]

/-- Witness of the amended C1 at radius `2`. -/
theorem Circle_new_area_perimeter_witness :
    (0 : ℚ) < 2 ∧ (2 : ℚ) ≤ 1000 ∧
    (((Circle.new "red" (2 : ℚ)).calculateArea M_PI).1 = M_PI * 2 ^ 2 ∧
      ((Circle.new "red" (2 : ℚ)).calculatePerimeter M_PI).1 = 2 * M_PI * 2) ∧
    (∃ a, (Circle.new "red" (2 : ℚ)).calculateAreaBinary64 =
        some (a, { Circle.new "red" (2 : ℚ) with area := a }) ∧
      |((a : ℚ) : ℝ) - Real.pi * ((2 : ℚ) : ℝ) ^ 2| ≤ 1 / 10 ^ 9) :=
  ⟨by norm_num, by norm_num,
    (Circle_new_area_perimeter M_PI "red" 2 (by norm_num) 2 (by norm_num) (by norm_num)).1,
    (Circle_new_area_perimeter M_PI "red" 2 (by norm_num) 2 (by norm_num) (by norm_num)).2.1⟩

/-- C2: on a Circle in any state, `setRadius(r2)` followed by
`calculateArea()` returns `π·r2²`; in particular on a Circle whose area was
already computed and cached for its earlier radius. -/
theorem Circle_setRadius_then_calculateArea {R : Type} [Field R]
    (pi : R) (c : Circle R) (r2 : R) :
    ((c.setRadius r2).calculateArea pi).1 = pi * r2 ^ 2 ∧
    ((((c.calculateArea pi).2).setRadius r2).calculateArea pi).1 = pi * r2 ^ 2 := by
  constructor <;>
  · simp only [Circle.calculateArea, Circle.setRadius]
    ring

/-- C3, the claim fails: on the Circle built with radius 1, after
`calculateArea()` and `setRadius(2)` the accessor `getArea()` still yields
the area computed for radius 1, which is not `π·2²`. -/
theorem Circle_getArea_stale_after_setRadius :
    (((Circle.new "red" (1 : ℚ)).calculateArea M_PI).2.setRadius 2).getArea = M_PI * 1 ^ 2 ∧
    (((Circle.new "red" (1 : ℚ)).calculateArea M_PI).2.setRadius 2).getArea ≠ M_PI * 2 ^ 2 := by
  simp only [Circle.getArea, Shape.getArea, Circle.setRadius, Circle.calculateArea, Circle.new,
    M_PI]
  norm_num

/-- C3 as amended: after a computing call and then a setter, the computing
call (`calculateArea()`, `calculatePerimeter()`) returns the value for the new
parameters and the accessor read after that recomputation agrees with it;
the accessor (`getArea()`, `getPerimeter()`) read before any recomputation
returns the value stored by the earlier computing call, that of the old
parameters.  For Circle with `setRadius` and for Rectangle with
`setDimensions`. -/
theorem accessor_fresh_only_after_recompute {R : Type} [Field R]
    (pi : R) (c : Circle R) (r2 : R) (rect : Rectangle R) (w h : R) :
    -- Circle, area
    ((((c.calculateArea pi).2).setRadius r2).calculateArea pi).1 = pi * r2 ^ 2 ∧
    (((((c.calculateArea pi).2).setRadius r2).calculateArea pi).2).getArea = pi * r2 ^ 2 ∧
    (((c.calculateArea pi).2).setRadius r2).getArea = pi * c.radius ^ 2 ∧
    -- Circle, perimeter
    ((((c.calculatePerimeter pi).2).setRadius r2).calculatePerimeter pi).1 = 2 * pi * r2 ∧
    (((((c.calculatePerimeter pi).2).setRadius r2).calculatePerimeter pi).2).getPerimeter
      = 2 * pi * r2 ∧
    (((c.calculatePerimeter pi).2).setRadius r2).getPerimeter = 2 * pi * c.radius ∧
    -- Rectangle, area
    (((rect.calculateArea.2).setDimensions w h).calculateArea).1 = w * h ∧
    ((((rect.calculateArea.2).setDimensions w h).calculateArea).2).getArea = w * h ∧
    ((rect.calculateArea.2).setDimensions w h).getArea = rect.width * rect.height ∧
    -- Rectangle, perimeter
    (((rect.calculatePerimeter.2).setDimensions w h).calculatePerimeter).1 = 2 * (w + h) ∧
    ((((rect.calculatePerimeter.2).setDimensions w h).calculatePerimeter).2).getPerimeter
      = 2 * (w + h) ∧
    ((rect.calculatePerimeter.2).setDimensions w h).getPerimeter
      = 2 * (rect.width + rect.height) := by
  refine ⟨?_, ?_, ?_, rfl, rfl, rfl, rfl, rfl, rfl, rfl, rfl, rfl⟩ <;>
  · simp only [Circle.calculateArea, Circle.setRadius, Circle.getArea, Shape.getArea]
    ring

/-- C4, the claim fails: the Cube of side 2 answers `calculateArea()` with
24, the surface area `6·2²`, not with the base-square area `2² = 4`. -/
theorem Cube_calculateArea_not_base_area :
    ((Cube.new "red" (2 : ℚ)).calculateArea).1 = 24 ∧
    ((Cube.new "red" (2 : ℚ)).calculateArea).1 ≠ 2 ^ 2 := by
  simp only [Cube.calculateArea, Shape3D.calculateArea, Cube.calculateSurfaceArea, Cube.new]
  norm_num

/-- C4 as amended: for every Cube with side `s` (in any state, and as built
by the constructor), `calculateArea()` returns `6·s²`, the 3D surface
formula; that value is the base-square area `s²` only for `s = 0`. -/
theorem Cube_calculateArea_eq_six_sq {R : Type} [LinearOrderedField R]
    (c : Cube R) (color : String) (s : R) :
    (c.calculateArea).1 = 6 * c.side ^ 2 ∧
    ((Cube.new color s).calculateArea).1 = 6 * s ^ 2 ∧
    ((c.calculateArea).1 = c.side ^ 2 ↔ c.side = 0) := by
  simp only [Cube.calculateArea, Shape3D.calculateArea, Cube.calculateSurfaceArea, Cube.new]
  refine ⟨by ring, by ring, ?_⟩
  constructor
  · intro hEq
    have h5 : 5 * (c.side * c.side) = 0 := by linear_combination hEq
    have hsq : c.side * c.side = 0 := by
      rcases mul_eq_zero.mp h5 with h | h
      · norm_num at h
      · exact h
    exact mul_self_eq_zero.mp hsq
  · intro h0
    rw [h0]
    ring

/-- C5: on every Sphere, Cube and Cylinder, in every state, the inherited
`calculateArea()` returns exactly what `calculateSurfaceArea()` returns in
that state (and leaves the object in the same state): `4πr²` for a Sphere,
`6s²` for a Cube, `2πr(r+h)` for a Cylinder. -/
theorem Shape3D_calculateArea_eq_calculateSurfaceArea {R : Type} [Field R]
    (pi : R) (sp : Sphere R) (cu : Cube R) (cy : Cylinder R) :
    (sp.calculateArea pi = sp.calculateSurfaceArea pi ∧
      (sp.calculateArea pi).1 = 4 * pi * sp.radius ^ 2) ∧
    (cu.calculateArea = cu.calculateSurfaceArea ∧
      (cu.calculateArea).1 = 6 * cu.side ^ 2) ∧
    (cy.calculateArea pi = cy.calculateSurfaceArea pi ∧
      (cy.calculateArea pi).1 = 2 * pi * cy.radius * (cy.radius + cy.height)) := by
  refine ⟨⟨rfl, ?_⟩, ⟨rfl, ?_⟩, ⟨rfl, ?_⟩⟩
  · simp only [Sphere.calculateArea, Shape3D.calculateArea, Sphere.calculateSurfaceArea]
    ring
  · simp only [Cube.calculateArea, Shape3D.calculateArea, Cube.calculateSurfaceArea]
    ring
  · simp only [Cylinder.calculateArea, Shape3D.calculateArea, Cylinder.calculateSurfaceArea]

/-- C6: for every Cube with side `s`, `calculateVolume()` returns `s³` and
`calculateSurfaceArea()` returns `6·s²`, both for a cube constructed with
side `s` and for a cube in any state after `setSide(s)`. -/
theorem Cube_volume_surfaceArea {R : Type} [Field R]
    (color : String) (s : R) (c : Cube R) :
    ((Cube.new color s).calculateVolume).1 = s ^ 3 ∧
    ((Cube.new color s).calculateSurfaceArea).1 = 6 * s ^ 2 ∧
    ((c.setSide s).calculateVolume).1 = s ^ 3 ∧
    ((c.setSide s).calculateSurfaceArea).1 = 6 * s ^ 2 := by
  simp only [Cube.calculateVolume, Cube.calculateSurfaceArea, Cube.new, Cube.setSide]
  refine ⟨by ring, by ring, by ring, by ring⟩

/-- C7: for every side `s` and colours `c1`, `c2`, `Square(c1, s)` returns
`s²` from `calculateArea()`, the same value `Rectangle(c2, s, s)` returns. -/
theorem Square_area_eq_Rectangle_area {R : Type} [Field R]
    (c1 c2 : String) (s : R) :
    ((Square.new c1 s).calculateArea).1 = s ^ 2 ∧
    ((Square.new c1 s).calculateArea).1 = ((Rectangle.new c2 s s).calculateArea).1 := by
  refine ⟨?_, rfl⟩
  simp only [Square.calculateArea, Rectangle.calculateArea, Square.new, Rectangle.new]
  ring

/-- C8, the code at the failing input: on the Square built with side 1 the
inherited `setDimensions(1, 2)` leaves `getWidth() = 1` and
`getHeight() = 2` (and `getSide()` still answers 1), so width and height
differ. -/
theorem Square_setDimensions_breaks_width_eq_height :
    ((Square.new "red" (1 : ℚ)).calls [SquareCall.setDimensions 1 2]).getWidth = 1 ∧
    ((Square.new "red" (1 : ℚ)).calls [SquareCall.setDimensions 1 2]).getHeight = 2 ∧
    ((Square.new "red" (1 : ℚ)).calls [SquareCall.setDimensions 1 2]).getSide = 1 ∧
    ((Square.new "red" (1 : ℚ)).calls [SquareCall.setDimensions 1 2]).getWidth ≠
      ((Square.new "red" (1 : ℚ)).calls [SquareCall.setDimensions 1 2]).getHeight := by
  simp only [Square.calls, List.foldl, Square.call, Square.setDimensions,
    Rectangle.setDimensions, Square.getWidth, Square.getHeight, Square.getSide,
    Rectangle.getWidth, Rectangle.getHeight, Square.new, Rectangle.new]
  norm_num

/-- Supporting fact for C8: the constructor, `setSide` and every other call
of the public interface keep `getWidth() == getHeight()`, as long as each
`setDimensions(w, h)` in the sequence is called with `w = h`. -/
theorem Square_calls_keep_width_eq_height {R : Type} [Field R]
    (cs : List (SquareCall R)) (s : Square R)
    (hs : s.getWidth = s.getHeight) (hcs : ∀ c ∈ cs, c.equalSides) :
    (s.calls cs).getWidth = (s.calls cs).getHeight := by
  induction cs generalizing s with
  | nil => simpa [Square.calls] using hs
  | cons c cs ih =>
    have hstep : (s.call c).getWidth = (s.call c).getHeight := by
      have hc : c.equalSides := hcs c (List.mem_cons_self c cs)
      cases c with
      | setSide side => rfl
      | setDimensions w h => exact hc
      | setColor col => exact hs
      | calculateArea => exact hs
      | calculatePerimeter => exact hs
      | draw => exact hs
    have htail : ∀ d ∈ cs, d.equalSides := fun d hd => hcs d (List.mem_cons_of_mem c hd)
    simpa [Square.calls] using ih (s.call c) hstep htail

/-- C9: `create2DShape(type, colour)` is null exactly when `type` is none of
"circle", "rectangle", "square", and `create3DShape(type, colour)` is null
exactly when `type` is none of "sphere", "cube", "cylinder"; "unknown",
"Circle" and the empty string give null from both. -/
theorem factory_null_iff_unrecognised {R : Type} [Field R] (type color : String) :
    ((ConcreteShapeFactory.create2DShape type color : Option (Shape2DObj R)) = none ↔
      (type ≠ "circle" ∧ type ≠ "rectangle" ∧ type ≠ "square")) ∧
    ((ConcreteShapeFactory.create3DShape type color : Option (Shape3DObj R)) = none ↔
      (type ≠ "sphere" ∧ type ≠ "cube" ∧ type ≠ "cylinder")) ∧
    (ConcreteShapeFactory.create2DShape "unknown" color : Option (Shape2DObj R)) = none ∧
    (ConcreteShapeFactory.create2DShape "Circle" color : Option (Shape2DObj R)) = none ∧
    (ConcreteShapeFactory.create2DShape "" color : Option (Shape2DObj R)) = none ∧
    (ConcreteShapeFactory.create3DShape "unknown" color : Option (Shape3DObj R)) = none ∧
    (ConcreteShapeFactory.create3DShape "Circle" color : Option (Shape3DObj R)) = none ∧
    (ConcreteShapeFactory.create3DShape "" color : Option (Shape3DObj R)) = none := by
  refine ⟨?_, ?_, ?_, ?_, ?_, ?_, ?_, ?_⟩
  · unfold ConcreteShapeFactory.create2DShape
    split_ifs <;> simp [*]
  · unfold ConcreteShapeFactory.create3DShape
    split_ifs <;> simp [*]
  all_goals simp [ConcreteShapeFactory.create2DShape, ConcreteShapeFactory.create3DShape]

/-- C10, the claim fails: `setRadius(-1)` on the Circle built with radius 1
completes and leaves `getRadius() = -1`, and the Circle constructed with
radius -1 has `getRadius() = -1`. -/
theorem Circle_accepts_negative_radius :
    (-1 : ℚ) < 0 ∧
    ((Circle.new "red" (1 : ℚ)).setRadius (-1)).getRadius = -1 ∧
    (Circle.new "red" (-1 : ℚ)).getRadius = -1 := by
  simp only [Circle.getRadius, Circle.setRadius, Circle.new]
  norm_num

/-- C10 as amended: a negative radius, side or dimension `v` supplied to a
constructor or to a setter is accepted; the call completes (constructors and
setters have no failure path) and the parameter is set to exactly `v`.
Here `u` is the other argument of a two-argument call and `c`, `sp`, `sq`,
`cu`, `re`, `cy` are objects in any state. -/
theorem negative_parameter_is_stored {R : Type} [LinearOrderedField R]
    (v : R) (_hv : v < 0) (u : R) (color : String)
    (c : Circle R) (sp : Sphere R) (sq : Square R) (cu : Cube R)
    (re : Rectangle R) (cy : Cylinder R) :
    -- constructors
    (Circle.new color v).getRadius = v ∧
    (Sphere.new color v).getRadius = v ∧
    ((Square.new color v).getSide = v ∧ (Square.new color v).getWidth = v ∧
      (Square.new color v).getHeight = v) ∧
    (Cube.new color v).getSide = v ∧
    ((Rectangle.new color v u).getWidth = v ∧ (Rectangle.new color u v).getHeight = v) ∧
    ((Cylinder.new color v u).getRadius = v ∧ (Cylinder.new color u v).getHeight = v) ∧
    -- setters
    (c.setRadius v).getRadius = v ∧
    (sp.setRadius v).getRadius = v ∧
    ((sq.setSide v).getSide = v ∧ (sq.setSide v).getWidth = v ∧
      (sq.setSide v).getHeight = v) ∧
    (cu.setSide v).getSide = v ∧
    ((re.setDimensions v u).getWidth = v ∧ (re.setDimensions u v).getHeight = v) ∧
    ((cy.setDimensions v u).getRadius = v ∧ (cy.setDimensions u v).getHeight = v) := by
  refine ⟨rfl, rfl, ⟨rfl, rfl, rfl⟩, rfl, ⟨rfl, rfl⟩, ⟨rfl, rfl⟩, rfl, rfl,
    ⟨rfl, rfl, rfl⟩, rfl, ⟨rfl, rfl⟩, ⟨rfl, rfl⟩⟩

/-- Witness of the amended C10 at `v = -1` over `ℚ`. -/
theorem negative_parameter_is_stored_witness :
    (-1 : ℚ) < 0 ∧ ((Circle.new "red" (1 : ℚ)).setRadius (-1)).getRadius = -1 :=
  ⟨by norm_num,
    (negative_parameter_is_stored (-1 : ℚ) (by norm_num) 1 "red"
      (Circle.new "red" 1) (Sphere.new "red" 1) (Square.new "red" 1) (Cube.new "red" 1)
      (Rectangle.new "red" 1 1) (Cylinder.new "red" 1 1)).2.2.2.2.2.2.1⟩

/-- C11, the claim fails: the Rectangle constructed with width -1 and height
2, and equally the Rectangle brought there by `setDimensions(-1, 2)`, returns
the negative area -2 from `calculateArea()`. -/
theorem Rectangle_negative_area :
    ((Rectangle.new "red" (-1 : ℚ) 2).calculateArea).1 = -2 ∧
    (((Rectangle.new "red" (1 : ℚ) 2).setDimensions (-1) 2).calculateArea).1 = -2 ∧
    ((Rectangle.new "red" (-1 : ℚ) 2).calculateArea).1 < 0 := by
  simp only [Rectangle.calculateArea, Rectangle.setDimensions, Rectangle.new]
  norm_num

/-- C11 as amended: every Circle, Rectangle, Square, Sphere, Cube and
Cylinder whose parameters (radius, width and height, side) are all
non-negative returns a value `>= 0` from `calculateArea()`,
`calculatePerimeter()`, `calculateVolume()` and `calculateSurfaceArea()`
(where the shape has them), `M_PI` being non-negative. -/
theorem quantities_nonneg_of_nonneg_parameters {R : Type} [LinearOrderedField R]
    (pi : R) (hpi : 0 ≤ pi)
    (c : Circle R) (hc : 0 ≤ c.getRadius)
    (re : Rectangle R) (hw : 0 ≤ re.getWidth) (hh : 0 ≤ re.getHeight)
    (sq : Square R) (hsw : 0 ≤ sq.getWidth) (hsh : 0 ≤ sq.getHeight)
    (sp : Sphere R) (hsp : 0 ≤ sp.getRadius)
    (cu : Cube R) (hcu : 0 ≤ cu.getSide)
    (cy : Cylinder R) (hcr : 0 ≤ cy.getRadius) (hch : 0 ≤ cy.getHeight) :
    (0 ≤ (c.calculateArea pi).1 ∧ 0 ≤ (c.calculatePerimeter pi).1) ∧
    (0 ≤ re.calculateArea.1 ∧ 0 ≤ re.calculatePerimeter.1) ∧
    (0 ≤ sq.calculateArea.1 ∧ 0 ≤ sq.calculatePerimeter.1) ∧
    (0 ≤ (sp.calculateArea pi).1 ∧ 0 ≤ (sp.calculateVolume pi).1 ∧
      0 ≤ (sp.calculateSurfaceArea pi).1) ∧
    (0 ≤ cu.calculateArea.1 ∧ 0 ≤ cu.calculateVolume.1 ∧ 0 ≤ cu.calculateSurfaceArea.1) ∧
    (0 ≤ (cy.calculateArea pi).1 ∧ 0 ≤ (cy.calculateVolume pi).1 ∧
      0 ≤ (cy.calculateSurfaceArea pi).1) := by
  simp only [Circle.getRadius, Rectangle.getWidth, Rectangle.getHeight, Square.getWidth,
    Square.getHeight, Sphere.getRadius, Cube.getSide, Cylinder.getRadius, Cylinder.getHeight]
    at hc hw hh hsw hsh hsp hcu hcr hch
  simp only [Circle.calculateArea, Circle.calculatePerimeter, Rectangle.calculateArea,
    Rectangle.calculatePerimeter, Square.calculateArea, Square.calculatePerimeter,
    Sphere.calculateArea, Sphere.calculateVolume, Sphere.calculateSurfaceArea,
    Cube.calculateArea, Cube.calculateVolume, Cube.calculateSurfaceArea,
    Cylinder.calculateArea, Cylinder.calculateVolume, Cylinder.calculateSurfaceArea,
    Shape3D.calculateArea]
  refine ⟨⟨?_, ?_⟩, ⟨?_, ?_⟩, ⟨?_, ?_⟩, ⟨?_, ?_, ?_⟩, ⟨?_, ?_, ?_⟩, ⟨?_, ?_, ?_⟩⟩ <;> positivity

/-- Witness of the amended C11 over `ℚ`: shapes built with the parameters 1,
2 and 3, and the Rectangle 2 by 3 with its non-negative area. -/
theorem quantities_nonneg_of_nonneg_parameters_witness :
    (0 : ℚ) ≤ M_PI ∧ (0 : ℚ) ≤ (Rectangle.new "red" (2 : ℚ) 3).getWidth ∧
    (0 : ℚ) ≤ (Rectangle.new "red" (2 : ℚ) 3).getHeight ∧
    0 ≤ ((Rectangle.new "red" (2 : ℚ) 3).calculateArea).1 :=
  ⟨by norm_num [M_PI], by norm_num [Rectangle.getWidth, Rectangle.new],
    by norm_num [Rectangle.getHeight, Rectangle.new],
    (quantities_nonneg_of_nonneg_parameters M_PI (by norm_num [M_PI])
      (Circle.new "red" 1) (by norm_num [Circle.getRadius, Circle.new])
      (Rectangle.new "red" 2 3) (by norm_num [Rectangle.getWidth, Rectangle.new])
      (by norm_num [Rectangle.getHeight, Rectangle.new])
      (Square.new "red" 1)
      (by norm_num [Square.getWidth, Rectangle.getWidth, Square.new, Rectangle.new])
      (by norm_num [Square.getHeight, Rectangle.getHeight, Square.new, Rectangle.new])
      (Sphere.new "red" 1) (by norm_num [Sphere.getRadius, Sphere.new])
      (Cube.new "red" 1) (by norm_num [Cube.getSide, Cube.new])
      (Cylinder.new "red" 1 2) (by norm_num [Cylinder.getRadius, Cylinder.new])
      (by norm_num [Cylinder.getHeight, Cylinder.new])).2.1.1⟩

/-- C12: on every Circle, Rectangle, Square, Sphere, Cube and Cylinder, in
every state, a second `calculateArea()` right after a first returns the same
value and leaves the object exactly as the first left it; and the value
returned is the same for two objects with the same parameters (radius /
width, height / side) whatever their colours and cached members are. -/
theorem calculateArea_idempotent_and_parameter_only {R : Type} [Field R] (pi : R)
    (c : Circle R) (re : Rectangle R) (sq : Square R)
    (sp : Sphere R) (cu : Cube R) (cy : Cylinder R)
    (col1 col2 : String) (a1 a2 p1 p2 v1 v2 s1 s2 r w h : R) :
    -- two consecutive calls
    (c.calculateArea pi).2.calculateArea pi = c.calculateArea pi ∧
    re.calculateArea.2.calculateArea = re.calculateArea ∧
    sq.calculateArea.2.calculateArea = sq.calculateArea ∧
    (sp.calculateArea pi).2.calculateArea pi = sp.calculateArea pi ∧
    cu.calculateArea.2.calculateArea = cu.calculateArea ∧
    (cy.calculateArea pi).2.calculateArea pi = cy.calculateArea pi ∧
    -- same parameters, any colour and cached members
    (Circle.calculateArea pi { color := col1, area := a1, perimeter := p1, radius := r }).1 =
      (Circle.calculateArea pi { color := col2, area := a2, perimeter := p2, radius := r }).1 ∧
    (Rectangle.calculateArea
        { color := col1, area := a1, perimeter := p1, width := w, height := h }).1 =
      (Rectangle.calculateArea
        { color := col2, area := a2, perimeter := p2, width := w, height := h }).1 ∧
    (Square.calculateArea
        { color := col1, area := a1, perimeter := p1, width := w, height := h }).1 =
      (Square.calculateArea
        { color := col2, area := a2, perimeter := p2, width := w, height := h }).1 ∧
    (Sphere.calculateArea pi
        { color := col1, area := a1, volume := v1, surfaceArea := s1, radius := r }).1 =
      (Sphere.calculateArea pi
        { color := col2, area := a2, volume := v2, surfaceArea := s2, radius := r }).1 ∧
    (Cube.calculateArea
        { color := col1, area := a1, volume := v1, surfaceArea := s1, side := w }).1 =
      (Cube.calculateArea
        { color := col2, area := a2, volume := v2, surfaceArea := s2, side := w }).1 ∧
    (Cylinder.calculateArea pi
        { color := col1, area := a1, volume := v1, surfaceArea := s1, radius := r,
          height := h }).1 =
      (Cylinder.calculateArea pi
        { color := col2, area := a2, volume := v2, surfaceArea := s2, radius := r,
          height := h }).1 := by
  refine ⟨rfl, rfl, rfl, rfl, rfl, rfl, rfl, rfl, rfl, rfl, rfl, rfl⟩

/-- C13: a Sphere of radius `r` returns `(4/3)·π·r³` from `calculateVolume()`
and `4·π·r²` from `calculateSurfaceArea()`; a Cylinder of radius `r` and
height `h` returns `π·r²·h` and `2·π·r·(r+h)`; for the shapes as constructed
and for shapes in any state brought there by their setter. -/
theorem Sphere_Cylinder_volume_surfaceArea {R : Type} [Field R]
    (pi : R) (color : String) (r h : R) (sp : Sphere R) (cy : Cylinder R) :
    ((Sphere.new color r).calculateVolume pi).1 = 4 / 3 * pi * r ^ 3 ∧
    ((Sphere.new color r).calculateSurfaceArea pi).1 = 4 * pi * r ^ 2 ∧
    ((sp.setRadius r).calculateVolume pi).1 = 4 / 3 * pi * r ^ 3 ∧
    ((sp.setRadius r).calculateSurfaceArea pi).1 = 4 * pi * r ^ 2 ∧
    ((Cylinder.new color r h).calculateVolume pi).1 = pi * r ^ 2 * h ∧
    ((Cylinder.new color r h).calculateSurfaceArea pi).1 = 2 * pi * r * (r + h) ∧
    ((cy.setDimensions r h).calculateVolume pi).1 = pi * r ^ 2 * h ∧
    ((cy.setDimensions r h).calculateSurfaceArea pi).1 = 2 * pi * r * (r + h) := by
  refine ⟨?_, ?_, ?_, ?_, ?_, rfl, ?_, rfl⟩ <;>
  · simp only [Sphere.calculateVolume, Sphere.calculateSurfaceArea, Sphere.new,
      Sphere.setRadius, Cylinder.calculateVolume, Cylinder.new, Cylinder.setDimensions]
    ring

/-- C14: `Rectangle(w, h)` returns `w·h` from `calculateArea()` and `2·(w+h)`
from `calculatePerimeter()`; a Square of side `s`, given to the constructor
or set later with `setSide(s)`, returns `4·s` from `calculatePerimeter()`
and `s` from `getSide()`. -/
theorem Rectangle_Square_formulas {R : Type} [Field R]
    (color : String) (w h s : R) (sq : Square R) :
    ((Rectangle.new color w h).calculateArea).1 = w * h ∧
    ((Rectangle.new color w h).calculatePerimeter).1 = 2 * (w + h) ∧
    ((Square.new color s).calculatePerimeter).1 = 4 * s ∧
    (Square.new color s).getSide = s ∧
    ((sq.setSide s).calculatePerimeter).1 = 4 * s ∧
    (sq.setSide s).getSide = s := by
  refine ⟨rfl, rfl, ?_, rfl, ?_, rfl⟩ <;>
  · simp only [Square.calculatePerimeter, Rectangle.calculatePerimeter, Square.new,
      Rectangle.new, Square.setSide]
    ring

/-- C15: on an AdvancedCircle, `translate`, `rotate`, `scale` and
`setRenderMode` leave the Circle part (radius, colour, cached area and
perimeter) unchanged, so `calculateArea()` after `scale(f)` is `π·r²` for the
unscaled radius; and `setRadius`, `setColor`, `calculateArea` and
`calculatePerimeter` leave position, rotation, scale factor and render mode
unchanged. -/
theorem AdvancedCircle_trait_and_geometry_disjoint {R : Type} [Field R]
    (pi : R) (a : AdvancedCircle R) (x y z angle f r : R) (mode : Int) (col : String) :
    (a.translate x y z).toCircle = a.toCircle ∧
    (a.rotate angle).toCircle = a.toCircle ∧
    (a.scale f).toCircle = a.toCircle ∧
    (a.setRenderMode mode).toCircle = a.toCircle ∧
    ((a.scale f).calculateArea pi).1 = pi * a.radius ^ 2 ∧
    (a.setRadius r).traitState = a.traitState ∧
    (a.setColor col).traitState = a.traitState ∧
    (a.calculateArea pi).2.traitState = a.traitState ∧
    (a.calculatePerimeter pi).2.traitState = a.traitState := by
  refine ⟨rfl, rfl, rfl, rfl, ?_, rfl, rfl, rfl, rfl⟩
  simp only [AdvancedCircle.calculateArea, Circle.calculateArea, AdvancedCircle.scale]
  ring

/-- An `int` value is unchanged by the wrap-around. -/
theorem wrapInt32_of_int (x : Int) (hlo : -2147483648 ≤ x) (hhi : x ≤ 2147483647) :
    wrapInt32 x = x := by
  unfold wrapInt32
  omega

/-- While the count stays within `0 .. INT_MAX`, `n` calls of `addShape()`
add `n` to it. -/
theorem ShapeManager_calls_replicate_addShape (n : Nat) (m : ShapeManager)
    (h0 : 0 ≤ m.shapeCount) (h1 : m.shapeCount + n ≤ 2147483647) :
    (m.calls (List.replicate n ManagerCall.addShape)).shapeCount = m.shapeCount + n := by
  induction n generalizing m with
  | zero => simp [ShapeManager.calls]
  | succ k ih =>
    have hstep : m.addShape.shapeCount = m.shapeCount + 1 := by
      simp only [ShapeManager.addShape]
      exact wrapInt32_of_int _ (by omega) (by push_cast at h1; omega)
    have hrec := ih m.addShape (by omega) (by push_cast at h1; omega)
    simp only [ShapeManager.calls, List.replicate_succ, List.foldl_cons, ShapeManager.call]
      at hrec ⊢
    rw [hrec, hstep]
    push_cast
    ring

/-- C16: a freshly constructed ShapeManager has `getShapeCount() = 0`, and
after `n` calls of `addShape()` with no removal `getShapeCount()` is `n`, for
every `n` within the range of `int`. -/
theorem ShapeManager_count_after_n_adds (n : Nat) (hn : (n : Int) ≤ INT_MAX) :
    ShapeManager.new.getShapeCount = 0 ∧
    (ShapeManager.new.calls (List.replicate n ManagerCall.addShape)).getShapeCount = n := by
  refine ⟨rfl, ?_⟩
  have h := ShapeManager_calls_replicate_addShape n ShapeManager.new (by simp [ShapeManager.new])
    (by simpa [ShapeManager.new, INT_MAX] using hn)
  simpa [ShapeManager.getShapeCount, ShapeManager.new] using h

/-- Witness of C16 at `n = 3`. -/
theorem ShapeManager_count_after_n_adds_witness :
    ((3 : Nat) : Int) ≤ INT_MAX ∧
    (ShapeManager.new.calls (List.replicate 3 ManagerCall.addShape)).getShapeCount
      = ((3 : Nat) : Int) :=
  ⟨by decide, (ShapeManager_count_after_n_adds 3 (by decide)).2⟩

/-- C18: for every recognised tag and every colour `c` the factory returns an
object of the class the tag names, whose colour is `c`, whose dimensions are
all 1 and whose cached area, perimeter, volume and surface area are 0; the
Square created for "square" has `getWidth() = getHeight() = 1`. -/
theorem factory_creates_unit_shapes {R : Type} [Field R] (c : String) :
    (ConcreteShapeFactory.create2DShape "circle" c : Option (Shape2DObj R)) =
      some (.circle { color := c, area := 0, perimeter := 0, radius := 1 }) ∧
    (ConcreteShapeFactory.create2DShape "rectangle" c : Option (Shape2DObj R)) =
      some (.rectangle { color := c, area := 0, perimeter := 0, width := 1, height := 1 }) ∧
    (ConcreteShapeFactory.create2DShape "square" c : Option (Shape2DObj R)) =
      some (.square { color := c, area := 0, perimeter := 0, width := 1, height := 1 }) ∧
    (ConcreteShapeFactory.create3DShape "sphere" c : Option (Shape3DObj R)) =
      some (.sphere { color := c, area := 0, volume := 0, surfaceArea := 0, radius := 1 }) ∧
    (ConcreteShapeFactory.create3DShape "cube" c : Option (Shape3DObj R)) =
      some (.cube { color := c, area := 0, volume := 0, surfaceArea := 0, side := 1 }) ∧
    (ConcreteShapeFactory.create3DShape "cylinder" c : Option (Shape3DObj R)) =
      some (.cylinder { color := c, area := 0, volume := 0, surfaceArea := 0, radius := 1,
                        height := 1 }) ∧
    (∃ sq : Square R,
      (ConcreteShapeFactory.create2DShape "square" c : Option (Shape2DObj R)) =
        some (.square sq) ∧
      sq.getColor = c ∧ sq.getWidth = 1 ∧ sq.getHeight = 1 ∧ sq.getSide = 1 ∧
      sq.getArea = 0 ∧ sq.getPerimeter = 0) := by
  exact ⟨rfl, rfl, rfl, rfl, rfl, rfl, Square.new c 1, rfl, rfl, rfl, rfl, rfl, rfl, rfl⟩

/-- One more `addShape()` at the end of a run of `addShape()` calls. -/
theorem ShapeManager_calls_replicate_succ (n : Nat) (m : ShapeManager) :
    m.calls (List.replicate (n + 1) ManagerCall.addShape) =
      (m.calls (List.replicate n ManagerCall.addShape)).addShape := by
  induction n generalizing m with
  | zero => rfl
  | succ k ih =>
    have hrec := ih m.addShape
    simp only [ShapeManager.calls, List.replicate_succ, List.foldl_cons, ShapeManager.call]
      at hrec ⊢
    exact hrec

/-- While the count cannot reach past `INT_MAX`, it stays between 0 and the
start value plus the number of `addShape()` calls. -/
theorem ShapeManager_calls_count_bounds (cs : List ManagerCall) (m : ShapeManager)
    (h0 : 0 ≤ m.shapeCount)
    (h1 : m.shapeCount + (cs.count ManagerCall.addShape : Nat) ≤ 2147483647) :
    0 ≤ (m.calls cs).shapeCount ∧
    (m.calls cs).shapeCount ≤ m.shapeCount + (cs.count ManagerCall.addShape : Nat) := by
  induction cs generalizing m with
  | nil => simp [ShapeManager.calls, h0]
  | cons c cs ih =>
    cases c with
    | addShape =>
      rw [List.count_cons_self] at h1 ⊢
      push_cast at h1 ⊢
      have hstep : m.addShape.shapeCount = m.shapeCount + 1 := by
        simp only [ShapeManager.addShape]
        exact wrapInt32_of_int _ (by omega) (by omega)
      have hrec := ih m.addShape (by omega) (by omega)
      simp only [ShapeManager.calls, List.foldl_cons, ShapeManager.call] at hrec ⊢
      omega
    | removeShape =>
      rw [List.count_cons_of_ne (by decide)] at h1 ⊢
      have hstep : 0 ≤ m.removeShape.shapeCount ∧ m.removeShape.shapeCount ≤ m.shapeCount := by
        unfold ShapeManager.removeShape
        split_ifs with hpos
        · have hw : wrapInt32 (m.shapeCount - 1) = m.shapeCount - 1 :=
            wrapInt32_of_int _ (by omega) (by omega)
          simp only [hw]
          omega
        · omega
      have hrec := ih m.removeShape hstep.1 (by omega)
      simp only [ShapeManager.calls, List.foldl_cons, ShapeManager.call] at hrec ⊢
      omega

/-- C19, the claim fails: from a fresh manager, 2147483648 calls of
`addShape()` leave `getShapeCount() = -2147483648`, a negative count (the
increment at `INT_MAX` wraps around); and at the count `INT_MAX`, reached
after 2147483647 calls, `addShape()` followed by `removeShape()` does not
restore the count. -/
theorem ShapeManager_count_negative_after_overflow :
    (ShapeManager.new.calls
      (List.replicate 2147483648 ManagerCall.addShape)).getShapeCount = -2147483648 ∧
    (ShapeManager.new.calls
      (List.replicate 2147483648 ManagerCall.addShape)).getShapeCount < 0 ∧
    (ShapeManager.new.calls
      (List.replicate 2147483647 ManagerCall.addShape)).getShapeCount = INT_MAX ∧
    (ShapeManager.new.calls
      (List.replicate 2147483647 ManagerCall.addShape)).addShape.removeShape.getShapeCount
        = -2147483648 := by
  have hmax : (ShapeManager.new.calls
      (List.replicate 2147483647 ManagerCall.addShape)).shapeCount = 2147483647 := by
    have h := ShapeManager_calls_replicate_addShape 2147483647 ShapeManager.new
      (by decide) (by decide)
    rw [h]
    decide
  have hsucc : ShapeManager.new.calls (List.replicate 2147483648 ManagerCall.addShape) =
      (ShapeManager.new.calls (List.replicate 2147483647 ManagerCall.addShape)).addShape :=
    ShapeManager_calls_replicate_succ 2147483647 ShapeManager.new
  have hadd : (ShapeManager.new.calls
      (List.replicate 2147483647 ManagerCall.addShape)).addShape.shapeCount = -2147483648 := by
    unfold ShapeManager.addShape
    rw [hmax]
    decide
  have hrem : (ShapeManager.new.calls
      (List.replicate 2147483647 ManagerCall.addShape)).addShape.removeShape.shapeCount
        = -2147483648 := by
    unfold ShapeManager.removeShape
    rw [if_neg (by rw [hadd]; decide)]
    exact hadd
  refine ⟨?_, ?_, ?_, ?_⟩
  · rw [hsucc, ShapeManager.getShapeCount]
    exact hadd
  · rw [hsucc, ShapeManager.getShapeCount, hadd]
    decide
  · rw [ShapeManager.getShapeCount, hmax]
    decide
  · rw [ShapeManager.getShapeCount]
    exact hrem

/-- Without an `addShape()` at `INT_MAX`, a count that starts in
`0 .. INT_MAX` stays there. -/
theorem ShapeManager_calls_nonneg (cs : List ManagerCall) (m : ShapeManager)
    (h0 : 0 ≤ m.shapeCount) (h1 : m.shapeCount ≤ 2147483647)
    (hcs : m.addsBelowIntMax cs = true) :
    0 ≤ (m.calls cs).shapeCount ∧ (m.calls cs).shapeCount ≤ 2147483647 := by
  induction cs generalizing m with
  | nil => exact ⟨h0, h1⟩
  | cons c cs ih =>
    cases c with
    | addShape =>
      simp only [ShapeManager.addsBelowIntMax, INT_MAX, Bool.and_eq_true, decide_eq_true_eq]
        at hcs
      have hstep : m.addShape.shapeCount = m.shapeCount + 1 := by
        simp only [ShapeManager.addShape]
        exact wrapInt32_of_int _ (by omega) (by omega)
      exact ih m.addShape (by omega) (by omega) hcs.2
    | removeShape =>
      simp only [ShapeManager.addsBelowIntMax] at hcs
      have hstep : 0 ≤ m.removeShape.shapeCount ∧ m.removeShape.shapeCount ≤ 2147483647 := by
        unfold ShapeManager.removeShape
        split_ifs with hpos
        · have hw : wrapInt32 (m.shapeCount - 1) = m.shapeCount - 1 :=
            wrapInt32_of_int _ (by omega) (by omega)
          simp only [hw]
          omega
        · exact ⟨h0, h1⟩
      exact ih m.removeShape hstep.1 hstep.2 hcs

/-- C19 as amended: from a fresh manager, after every finite sequence of
`addShape()` and `removeShape()` calls in which `addShape()` is never called
at the count `INT_MAX` (`cs`), in particular after every sequence with at most
`INT_MAX` calls of `addShape()` (`ds`), `getShapeCount() >= 0`;
`removeShape()` at count 0 leaves the count 0; and on a manager whose count
is in `0 .. INT_MAX - 1`, `addShape()` followed by `removeShape()` restores
the count. -/
theorem ShapeManager_count_nonneg_without_overflow
    (cs : List ManagerCall) (hcs : ShapeManager.new.addsBelowIntMax cs = true)
    (ds : List ManagerCall) (hds : ((ds.count ManagerCall.addShape : Nat) : Int) ≤ INT_MAX)
    (m : ShapeManager) (hm0 : 0 ≤ m.getShapeCount) (hm1 : m.getShapeCount < INT_MAX) :
    0 ≤ (ShapeManager.new.calls cs).getShapeCount ∧
    0 ≤ (ShapeManager.new.calls ds).getShapeCount ∧
    (ShapeManager.removeShape { shapeCount := 0 }).getShapeCount = 0 ∧
    m.addShape.removeShape.getShapeCount = m.getShapeCount := by
  simp only [INT_MAX, ShapeManager.getShapeCount] at hds hm0 hm1 ⊢
  refine ⟨?_, ?_, rfl, ?_⟩
  · exact (ShapeManager_calls_nonneg cs ShapeManager.new (by decide) (by decide) hcs).1
  · exact (ShapeManager_calls_count_bounds ds ShapeManager.new (by decide)
      (by simpa [ShapeManager.new] using hds)).1
  · have hadd : m.addShape.shapeCount = m.shapeCount + 1 := by
      simp only [ShapeManager.addShape]
      exact wrapInt32_of_int _ (by omega) (by omega)
    unfold ShapeManager.removeShape
    rw [if_pos (by rw [hadd]; omega), hadd]
    exact (wrapInt32_of_int _ (by omega) (by omega)).trans (by ring)

/-- Witness of the amended C19: the sequence add, remove, remove, add from a
fresh manager, and the manager with count 5. -/
theorem ShapeManager_count_nonneg_without_overflow_witness :
    0 ≤ (ShapeManager.new.calls
      [ManagerCall.addShape, ManagerCall.removeShape, ManagerCall.removeShape,
        ManagerCall.addShape]).getShapeCount ∧
    (ShapeManager.addShape { shapeCount := 5 }).removeShape.getShapeCount = 5 :=
  ⟨(ShapeManager_count_nonneg_without_overflow
      [ManagerCall.addShape, ManagerCall.removeShape, ManagerCall.removeShape,
        ManagerCall.addShape] (by decide) [ManagerCall.addShape] (by decide)
      { shapeCount := 5 } (by decide) (by decide)).1,
    (ShapeManager_count_nonneg_without_overflow [] (by decide) [] (by decide)
      { shapeCount := 5 } (by decide) (by decide)).2.2.2⟩

/-- Each Sphere call keeps the cached members coherent with the values seen. -/
theorem Sphere_call_coherent {R : Type} [Field R] (pi : R) (o : Observed (Sphere R) R)
    (c : SphereCall R) (h : o.obj.toShape3D.coherent o.lastVolume o.lastSurfaceArea) :
    (Sphere.call pi o c).obj.toShape3D.coherent (Sphere.call pi o c).lastVolume
      (Sphere.call pi o c).lastSurfaceArea := by
  obtain ⟨ha, hv, hs⟩ := h
  cases c <;> refine ⟨?_, ?_, ?_⟩ <;> first | exact ha | exact hv | exact hs | rfl

/-- Each Cube call keeps the cached members coherent with the values seen. -/
theorem Cube_call_coherent {R : Type} [Field R] (o : Observed (Cube R) R)
    (c : CubeCall R) (h : o.obj.toShape3D.coherent o.lastVolume o.lastSurfaceArea) :
    (Cube.call o c).obj.toShape3D.coherent (Cube.call o c).lastVolume
      (Cube.call o c).lastSurfaceArea := by
  obtain ⟨ha, hv, hs⟩ := h
  cases c <;> refine ⟨?_, ?_, ?_⟩ <;> first | exact ha | exact hv | exact hs | rfl

/-- Each Cylinder call keeps the cached members coherent with the values seen. -/
theorem Cylinder_call_coherent {R : Type} [Field R] (pi : R) (o : Observed (Cylinder R) R)
    (c : CylinderCall R) (h : o.obj.toShape3D.coherent o.lastVolume o.lastSurfaceArea) :
    (Cylinder.call pi o c).obj.toShape3D.coherent (Cylinder.call pi o c).lastVolume
      (Cylinder.call pi o c).lastSurfaceArea := by
  obtain ⟨ha, hv, hs⟩ := h
  cases c <;> refine ⟨?_, ?_, ?_⟩ <;> first | exact ha | exact hv | exact hs | rfl

/-- A sequence of Sphere calls keeps the cached members coherent. -/
theorem Sphere_calls_coherent {R : Type} [Field R] (pi : R) (cs : List (SphereCall R))
    (o : Observed (Sphere R) R) (h : o.obj.toShape3D.coherent o.lastVolume o.lastSurfaceArea) :
    (Sphere.calls pi o cs).obj.toShape3D.coherent (Sphere.calls pi o cs).lastVolume
      (Sphere.calls pi o cs).lastSurfaceArea := by
  induction cs generalizing o with
  | nil => exact h
  | cons c cs ih => exact ih (Sphere.call pi o c) (Sphere_call_coherent pi o c h)

/-- A sequence of Cube calls keeps the cached members coherent. -/
theorem Cube_calls_coherent {R : Type} [Field R] (cs : List (CubeCall R))
    (o : Observed (Cube R) R) (h : o.obj.toShape3D.coherent o.lastVolume o.lastSurfaceArea) :
    (Cube.calls o cs).obj.toShape3D.coherent (Cube.calls o cs).lastVolume
      (Cube.calls o cs).lastSurfaceArea := by
  induction cs generalizing o with
  | nil => exact h
  | cons c cs ih => exact ih (Cube.call o c) (Cube_call_coherent o c h)

/-- A sequence of Cylinder calls keeps the cached members coherent. -/
theorem Cylinder_calls_coherent {R : Type} [Field R] (pi : R) (cs : List (CylinderCall R))
    (o : Observed (Cylinder R) R)
    (h : o.obj.toShape3D.coherent o.lastVolume o.lastSurfaceArea) :
    (Cylinder.calls pi o cs).obj.toShape3D.coherent (Cylinder.calls pi o cs).lastVolume
      (Cylinder.calls pi o cs).lastSurfaceArea := by
  induction cs generalizing o with
  | nil => exact h
  | cons c cs ih => exact ih (Cylinder.call pi o c) (Cylinder_call_coherent pi o c h)

/-- C20: on every Circle, Rectangle and Square, right after `calculateArea()`
returns `v`, `getArea()` returns `v`, and right after `calculatePerimeter()`
returns `p`, `getPerimeter()` returns `p`.  On every Sphere, Cube and
Cylinder, right after `calculateVolume()` / `calculateSurfaceArea()` the
accessors `getVolume()` / `getSurfaceArea()` return the value returned; and
after every sequence of calls on a constructed 3D shape, `getArea()` is 0,
`getVolume()` is the value last returned by `calculateVolume()` and
`getSurfaceArea()` the value last returned by `calculateSurfaceArea()` (0
while there has been no such call). -/
theorem cached_members_coherent {R : Type} [Field R] (pi : R)
    (c : Circle R) (re : Rectangle R) (sq : Square R)
    (sp : Sphere R) (cu : Cube R) (cy : Cylinder R)
    (color : String) (r h s : R)
    (scs : List (SphereCall R)) (ccs : List (CubeCall R)) (ycs : List (CylinderCall R)) :
    -- 2D shapes, right after the computing call
    ((c.calculateArea pi).2.getArea = (c.calculateArea pi).1 ∧
      (c.calculatePerimeter pi).2.getPerimeter = (c.calculatePerimeter pi).1) ∧
    (re.calculateArea.2.getArea = re.calculateArea.1 ∧
      re.calculatePerimeter.2.getPerimeter = re.calculatePerimeter.1) ∧
    (sq.calculateArea.2.getArea = sq.calculateArea.1 ∧
      sq.calculatePerimeter.2.getPerimeter = sq.calculatePerimeter.1) ∧
    -- 3D shapes, right after the computing call
    ((sp.calculateVolume pi).2.getVolume = (sp.calculateVolume pi).1 ∧
      (sp.calculateSurfaceArea pi).2.getSurfaceArea = (sp.calculateSurfaceArea pi).1) ∧
    (cu.calculateVolume.2.getVolume = cu.calculateVolume.1 ∧
      cu.calculateSurfaceArea.2.getSurfaceArea = cu.calculateSurfaceArea.1) ∧
    ((cy.calculateVolume pi).2.getVolume = (cy.calculateVolume pi).1 ∧
      (cy.calculateSurfaceArea pi).2.getSurfaceArea = (cy.calculateSurfaceArea pi).1) ∧
    -- 3D shapes, after any sequence of calls on the constructed object
    ((Sphere.calls pi (Observed.fresh (Sphere.new color r)) scs).obj.getArea = 0 ∧
      (Sphere.calls pi (Observed.fresh (Sphere.new color r)) scs).obj.getVolume =
        (Sphere.calls pi (Observed.fresh (Sphere.new color r)) scs).lastVolume.getD 0 ∧
      (Sphere.calls pi (Observed.fresh (Sphere.new color r)) scs).obj.getSurfaceArea =
        (Sphere.calls pi (Observed.fresh (Sphere.new color r)) scs).lastSurfaceArea.getD 0) ∧
    ((Cube.calls (Observed.fresh (Cube.new color s)) ccs).obj.getArea = 0 ∧
      (Cube.calls (Observed.fresh (Cube.new color s)) ccs).obj.getVolume =
        (Cube.calls (Observed.fresh (Cube.new color s)) ccs).lastVolume.getD 0 ∧
      (Cube.calls (Observed.fresh (Cube.new color s)) ccs).obj.getSurfaceArea =
        (Cube.calls (Observed.fresh (Cube.new color s)) ccs).lastSurfaceArea.getD 0) ∧
    ((Cylinder.calls pi (Observed.fresh (Cylinder.new color r h)) ycs).obj.getArea = 0 ∧
      (Cylinder.calls pi (Observed.fresh (Cylinder.new color r h)) ycs).obj.getVolume =
        (Cylinder.calls pi (Observed.fresh (Cylinder.new color r h)) ycs).lastVolume.getD 0 ∧
      (Cylinder.calls pi (Observed.fresh (Cylinder.new color r h)) ycs).obj.getSurfaceArea =
        (Cylinder.calls pi (Observed.fresh (Cylinder.new color r h)) ycs).lastSurfaceArea.getD
          0) := by
  refine ⟨⟨rfl, rfl⟩, ⟨rfl, rfl⟩, ⟨rfl, rfl⟩, ⟨rfl, rfl⟩, ⟨rfl, rfl⟩, ⟨rfl, rfl⟩, ?_, ?_, ?_⟩
  · exact Sphere_calls_coherent pi scs (Observed.fresh (Sphere.new color r)) ⟨rfl, rfl, rfl⟩
  · exact Cube_calls_coherent ccs (Observed.fresh (Cube.new color s)) ⟨rfl, rfl, rfl⟩
  · exact Cylinder_calls_coherent pi ycs (Observed.fresh (Cylinder.new color r h))
      ⟨rfl, rfl, rfl⟩

/-- C21: AdvancedCircle transforms accumulate and compose.  On the object
constructed at position `(x, y)` (rotation 0, scale factor 1),
`translate(dx, dy, dz)` gives `getX() = x + dx` and `getY() = y + dy`,
`rotate(t)` gives `getRotation() = t` with no normalisation and `scale(f)`
gives `getScaleFactor() = f`.  On an object in any state: the result of
`translate` does not depend on `dz`; two translations compose to the
translation by the sums and commute; `rotate(s)` then `rotate(t)` is
`rotate(s + t)`; `scale(f)` then `scale(g)` is `scale(f·g)`; and each of the
three leaves the other two transform components and the render mode
unchanged. -/
theorem AdvancedCircle_transforms_compose {R : Type} [Field R]
    (color : String) (radius x y : R) (a : AdvancedCircle R)
    (dx dy dz dz2 p q c d s t f g : R) :
    -- from the constructed object
    ((AdvancedCircle.new color radius x y).getX = x ∧
      (AdvancedCircle.new color radius x y).getY = y ∧
      (AdvancedCircle.new color radius x y).getRotation = 0 ∧
      (AdvancedCircle.new color radius x y).getScaleFactor = 1) ∧
    (((AdvancedCircle.new color radius x y).translate dx dy dz).getX = x + dx ∧
      ((AdvancedCircle.new color radius x y).translate dx dy dz).getY = y + dy) ∧
    ((AdvancedCircle.new color radius x y).rotate t).getRotation = t ∧
    ((AdvancedCircle.new color radius x y).scale f).getScaleFactor = f ∧
    -- translate, any state
    ((a.translate dx dy dz).getX = a.getX + dx ∧ (a.translate dx dy dz).getY = a.getY + dy) ∧
    (a.translate dx dy dz = a.translate dx dy dz2 ∧ a.translate dx dy dz = a.translate dx dy) ∧
    (a.translate p q).translate c d = a.translate (p + c) (q + d) ∧
    (a.translate p q).translate c d = (a.translate c d).translate p q ∧
    -- rotate, any state
    (a.rotate t).getRotation = a.getRotation + t ∧
    (a.rotate s).rotate t = a.rotate (s + t) ∧
    -- scale, any state
    (a.scale f).getScaleFactor = a.getScaleFactor * f ∧
    (a.scale f).scale g = a.scale (f * g) ∧
    -- each leaves the other components, the render mode and the Circle part unchanged
    ((a.translate dx dy dz).getRotation = a.getRotation ∧
      (a.translate dx dy dz).getScaleFactor = a.getScaleFactor ∧
      (a.translate dx dy dz).renderMode = a.renderMode) ∧
    ((a.rotate t).getX = a.getX ∧ (a.rotate t).getY = a.getY ∧
      (a.rotate t).getScaleFactor = a.getScaleFactor ∧
      (a.rotate t).renderMode = a.renderMode) ∧
    ((a.scale f).getX = a.getX ∧ (a.scale f).getY = a.getY ∧
      (a.scale f).getRotation = a.getRotation ∧
      (a.scale f).renderMode = a.renderMode) := by
  refine ⟨⟨rfl, rfl, rfl, rfl⟩, ⟨rfl, rfl⟩, ?_, ?_, ⟨rfl, rfl⟩, ⟨rfl, rfl⟩, ?_, ?_, rfl, ?_,
    rfl, ?_, ⟨rfl, rfl, rfl⟩, ⟨rfl, rfl, rfl, rfl⟩, ⟨rfl, rfl, rfl, rfl⟩⟩
  · simp only [AdvancedCircle.getRotation, AdvancedCircle.rotate, AdvancedCircle.new]
    ring
  · simp only [AdvancedCircle.getScaleFactor, AdvancedCircle.scale, AdvancedCircle.new]
    ring
  · simp only [AdvancedCircle.translate, add_assoc]
  · simp only [AdvancedCircle.translate, add_right_comm]
  · simp only [AdvancedCircle.rotate, add_assoc]
  · simp only [AdvancedCircle.scale, mul_assoc]

end TestProject

namespace ComplexExample

/-- The running total of `getTotalArea` / `getTotalVolume` started at `z` is
`z` plus the sum of the quantity over the collection. -/
theorem foldl_add_eq_sum {α R : Type} [Field R] (q : α → R) (l : List α) (z : R) :
    l.foldl (fun total shape => total + q shape) z = z + (l.map q).sum := by
  induction l generalizing z with
  | nil => simp
  | cons x xs ih =>
    simp only [List.foldl_cons, List.map_cons, List.sum_cons]
    rw [ih]
    ring

/-- A sequence of `addShape` / `addShape3D` calls appends to each collection
the shapes handed over to it, in call order, and nothing else. -/
theorem calls_collections {α β : Type} (cs : List (AddCall α β)) (m : ShapeManager α β) :
    (m.calls cs).shapes = m.shapes ++ AddCall.added cs ∧
    (m.calls cs).shapes3D = m.shapes3D ++ AddCall.added3D cs := by
  induction cs generalizing m with
  | nil => simp [ShapeManager.calls, AddCall.added, AddCall.added3D]
  | cons c cs ih =>
    cases c with
    | addShape shape =>
      have h := ih (m.addShape shape)
      simp only [ShapeManager.calls, List.foldl_cons, ShapeManager.call, AddCall.added,
        AddCall.added3D] at h ⊢
      refine ⟨?_, ?_⟩
      · rw [h.1]
        simp [ShapeManager.addShape]
      · rw [h.2]
        simp [ShapeManager.addShape]
    | addShape3D shape =>
      have h := ih (m.addShape3D shape)
      simp only [ShapeManager.calls, List.foldl_cons, ShapeManager.call, AddCall.added,
        AddCall.added3D] at h ⊢
      refine ⟨?_, ?_⟩
      · rw [h.1]
        simp [ShapeManager.addShape3D]
      · rw [h.2]
        simp [ShapeManager.addShape3D]

/-- Replacing the element after `pre` replaces exactly that element. -/
theorem set_length_append {α : Type} (pre post : List α) (s t : α) :
    (pre ++ s :: post).set pre.length t = pre ++ t :: post := by
  induction pre with
  | nil => rfl
  | cons x xs ih => simp [ih]

/-- C17: `getTotalArea()` is the sum of `area()` over the 2D collection as it
is at call time and `getTotalVolume()` the sum of `volume()` over the 3D
collection, for every ShapeManager.  The totals of a fresh manager are 0;
`addShape(s)` adds `area(s)` to the total area and leaves the total volume,
`addShape3D(t)` adds `volume(t)` to the total volume and leaves the total
area; so after any interleaving `cs` of `addShape` and `addShape3D` calls on a
fresh manager the total area is the sum of `area()` over the shapes added
with `addShape`, in insertion order, and the total volume the sum of
`volume()` over those added with `addShape3D`.  A member changed after
insertion counts with its current state.  With shapes of areas 10, 20, 30
added in that order (with or without 3D shapes `x`, `y` added in between)
the total area is 60, and 65 after a fourth shape of area 5. -/
theorem ShapeManager_totals {α β R : Type} [Field R] (area : α → R) (volume : β → R)
    (m : ShapeManager α β) (cs : List (AddCall α β)) (s s1 : α) (t t1 : β)
    (pre post : List α) (pre3 post3 : List β) (x y : β)
    (a b c d : α) (ha : area a = 10) (hb : area b = 20) (hc : area c = 30)
    (hd : area d = 5) :
    -- every manager, at call time
    (m.getTotalArea area = (m.shapes.map area).sum ∧
      m.getTotalVolume volume = (m.shapes3D.map volume).sum) ∧
    -- fresh manager
    ((ShapeManager.new : ShapeManager α β).getTotalArea area = 0 ∧
      (ShapeManager.new : ShapeManager α β).getTotalVolume volume = 0) ∧
    -- one call
    ((m.addShape s).getTotalArea area = m.getTotalArea area + area s ∧
      (m.addShape s).getTotalVolume volume = m.getTotalVolume volume ∧
      (m.addShape3D t).getTotalVolume volume = m.getTotalVolume volume + volume t ∧
      (m.addShape3D t).getTotalArea area = m.getTotalArea area) ∧
    -- any interleaving of calls on a fresh manager
    (((ShapeManager.new : ShapeManager α β).calls cs).getTotalArea area =
        ((AddCall.added cs).map area).sum ∧
      ((ShapeManager.new : ShapeManager α β).calls cs).getTotalVolume volume =
        ((AddCall.added3D cs).map volume).sum) ∧
    -- a member changed after insertion: `s` into `s1`, `t` into `t1`
    ((ShapeManager.mutateShape pre.length s1
        { shapes := pre ++ s :: post, shapes3D := m.shapes3D }).getTotalArea area =
        (pre.map area).sum + area s1 + (post.map area).sum ∧
      (ShapeManager.mutateShape3D pre3.length t1
        { shapes := m.shapes, shapes3D := pre3 ++ t :: post3 }).getTotalVolume volume =
        (pre3.map volume).sum + volume t1 + (post3.map volume).sum) ∧
    -- areas 10, 20, 30 and then 5
    (((((ShapeManager.new : ShapeManager α β).addShape a).addShape b).addShape c).getTotalArea
        area = 60 ∧
      (((((ShapeManager.new : ShapeManager α β).addShape a).addShape b).addShape c).addShape
        d).getTotalArea area = 65) ∧
    -- the same with 3D shapes added in between
    ((((((ShapeManager.new : ShapeManager α β).addShape a).addShape3D x).addShape b).addShape
        c).addShape3D y).getTotalArea area = 60 ∧
      (((((((ShapeManager.new : ShapeManager α β).addShape a).addShape3D x).addShape
        b).addShape c).addShape3D y).addShape d).getTotalArea area = 65 ∧
      (((((((ShapeManager.new : ShapeManager α β).addShape a).addShape3D x).addShape
        b).addShape c).addShape3D y).addShape d).getTotalVolume volume =
        volume x + volume y := by
  have htot : ∀ mgr : ShapeManager α β, mgr.getTotalArea area = (mgr.shapes.map area).sum := by
    intro mgr
    simp [ShapeManager.getTotalArea, foldl_add_eq_sum]
  have hvol : ∀ mgr : ShapeManager α β,
      mgr.getTotalVolume volume = (mgr.shapes3D.map volume).sum := by
    intro mgr
    simp [ShapeManager.getTotalVolume, foldl_add_eq_sum]
  refine ⟨⟨htot m, hvol m⟩, ⟨?_, ?_⟩, ⟨?_, ?_, ?_, ?_⟩, ⟨?_, ?_⟩, ⟨?_, ?_⟩, ⟨?_, ?_⟩,
    ?_, ?_, ?_⟩
  · simp [htot, ShapeManager.new]
  · simp [hvol, ShapeManager.new]
  · simp [htot, ShapeManager.addShape]
  · simp [hvol, ShapeManager.addShape]
  · simp [hvol, ShapeManager.addShape3D]
  · simp [htot, ShapeManager.addShape3D]
  · rw [htot, (calls_collections cs ShapeManager.new).1]
    simp [ShapeManager.new]
  · rw [hvol, (calls_collections cs ShapeManager.new).2]
    simp [ShapeManager.new]
  · rw [htot]
    simp only [ShapeManager.mutateShape, set_length_append, List.map_append, List.map_cons,
      List.sum_append, List.sum_cons]
    ring
  · rw [hvol]
    simp only [ShapeManager.mutateShape3D, set_length_append, List.map_append, List.map_cons,
      List.sum_append, List.sum_cons]
    ring
  · rw [htot]
    simp only [ShapeManager.addShape, ShapeManager.new, List.nil_append, List.cons_append,
      List.map_cons, List.map_nil, List.sum_cons, List.sum_nil, ha, hb, hc]
    norm_num
  · rw [htot]
    simp only [ShapeManager.addShape, ShapeManager.new, List.nil_append, List.cons_append,
      List.map_cons, List.map_nil, List.sum_cons, List.sum_nil, ha, hb, hc, hd]
    norm_num
  · rw [htot]
    simp only [ShapeManager.addShape, ShapeManager.addShape3D, ShapeManager.new,
      List.nil_append, List.cons_append, List.map_cons, List.map_nil, List.sum_cons,
      List.sum_nil, ha, hb, hc]
    norm_num
  · rw [htot]
    simp only [ShapeManager.addShape, ShapeManager.addShape3D, ShapeManager.new,
      List.nil_append, List.cons_append, List.map_cons, List.map_nil, List.sum_cons,
      List.sum_nil, ha, hb, hc, hd]
    norm_num
  · rw [hvol]
    simp only [ShapeManager.addShape, ShapeManager.addShape3D, ShapeManager.new,
      List.nil_append, List.cons_append, List.map_cons, List.map_nil, List.sum_cons,
      List.sum_nil]
    ring

/-- Witness of C17 over `ℚ`: a shape is given by its area (its volume); the
2D shapes 10, 20, 30, 5 with the 3D shapes 27 and 8 added in between. -/
theorem ShapeManager_totals_witness :
    ((((((ShapeManager.new : ShapeManager ℚ ℚ).addShape 10).addShape3D 27).addShape
      20).addShape 30).addShape3D 8).getTotalArea id = 60 ∧
    (((((((ShapeManager.new : ShapeManager ℚ ℚ).addShape 10).addShape3D 27).addShape
      20).addShape 30).addShape3D 8).addShape 5).getTotalArea id = 65 ∧
    (((((((ShapeManager.new : ShapeManager ℚ ℚ).addShape 10).addShape3D 27).addShape
      20).addShape 30).addShape3D 8).addShape 5).getTotalVolume id = 27 + 8 :=
  (ShapeManager_totals (id : ℚ → ℚ) (id : ℚ → ℚ) ShapeManager.new [] 0 0 0 0 [] [] [] []
    27 8 10 20 30 5 rfl rfl rfl rfl).2.2.2.2.2.2

end ComplexExample
